import Mathlib

/-!
Verification of the diff/reconciliation engine and rollback state machine of the
paramate CLI (AWS SSM Parameter Store sync tool).

The definitions below are a shallow embedding of the TypeScript sources:
  - `ParameterStoreService` (calculateDiff, isParameterIdentical, areTagsIdentical,
    syncParameters, putParameterWithRetry, rollbackParameters, the confirmation
    prompts) — src/unnamed/part_009;
  - `RollbackService` (saveRollbackState, loadRollbackState, clearRollbackState)
    — src/src/services/rollback.service.ts;
  - `RATE_LIMIT_CONFIG` — src/unnamed/part_010.

Remote I/O (the SSM API) is modelled by an explicit store state
(a function from parameter name to optional stored record) together with an
event trace listing the remote calls issued; the interactive prompt is modelled
by an explicit list of input events.  JavaScript timestamps are modelled as
natural numbers of milliseconds since the epoch.  Date-of-modification and
last-modified-user metadata, which no compared code path reads, are omitted.
-/

/-- A resource tag, a (key, value) pair of strings. -/
structure Tag where
  key : String
  value : String
deriving DecidableEq, Repr

/-- A desired parameter as parsed from the CSV (type `Parameter` in
src/src/types).  Optional TypeScript fields (`description?`, `kmsKeyId?`,
`tags?`) are modelled with `Option`. -/
structure Parameter where
  name : String
  value : String
  type : String
  description : Option String
  kmsKeyId : Option String
  tags : Option (List Tag)
deriving DecidableEq, Repr

/-- A parameter as returned from the remote store (type `ParameterFromStore`),
with the store-assigned metadata that the compared code reads.  In the source
`description`, `kmsKeyId` and `tags` are always populated (possibly with an
empty string or list) by `getParameter`. -/
structure ParameterFromStore where
  name : String
  value : String
  type : String
  description : String
  kmsKeyId : String
  version : Nat
  tags : List Tag
deriving DecidableEq, Repr

/-- Lexicographic comparison of character lists; computational model of the
JavaScript comparator `a.localeCompare(b) <= 0` for the ASCII tag keys this
tool handles. -/
def charListLe : List Char → List Char → Bool
  | [], _ => true
  | _ :: _, [] => false
  | a :: as, b :: bs => if a < b then true else if b < a then false else charListLe as bs

/-- String comparison through `charListLe` on the underlying characters. -/
def strLe (a b : String) : Bool := charListLe a.data b.data

theorem charListLe_total : ∀ as bs, charListLe as bs = true ∨ charListLe bs as = true
  | [], _ => Or.inl rfl
  | _ :: _, [] => Or.inr rfl
  | a :: as, b :: bs => by
      rcases lt_trichotomy a b with h | h | h
      · left
        simp [charListLe, h]
      · subst h
        rcases charListLe_total as bs with h2 | h2
        · left
          simp [charListLe, lt_irrefl, h2]
        · right
          simp [charListLe, lt_irrefl, h2]
      · right
        simp [charListLe, h]

theorem charListLe_trans :
    ∀ as bs cs, charListLe as bs = true → charListLe bs cs = true → charListLe as cs = true
  | [], _, _ => by
      intro _ _
      rfl
  | _ :: _, [], _ => by
      intro h _
      simp [charListLe] at h
  | _ :: _, _ :: _, [] => by
      intro _ h
      simp [charListLe] at h
  | a :: as, b :: bs, c :: cs => by
      intro h1 h2
      by_cases hab : a < b
      · by_cases hbc : b < c
        · simp [charListLe, hab.trans hbc]
        · by_cases hcb : c < b
          · simp [charListLe, hbc, hcb] at h2
          · have hbceq : b = c := le_antisymm (not_lt.mp hcb) (not_lt.mp hbc)
            subst hbceq
            simp [charListLe, hab]
      · by_cases hba : b < a
        · simp [charListLe, hab, hba] at h1
        · have habeq : a = b := le_antisymm (not_lt.mp hba) (not_lt.mp hab)
          subst habeq
          simp [charListLe, lt_irrefl] at h1
          by_cases hac : a < c
          · simp [charListLe, hac]
          · by_cases hca : c < a
            · simp [charListLe, hac, hca] at h2
            · have haceq : a = c := le_antisymm (not_lt.mp hca) (not_lt.mp hac)
              subst haceq
              simp [charListLe, lt_irrefl] at h2 ⊢
              exact charListLe_trans as bs cs h1 h2

theorem charListLe_antisymm :
    ∀ as bs, charListLe as bs = true → charListLe bs as = true → as = bs
  | [], [] => by
      intro _ _
      rfl
  | [], _ :: _ => by
      intro _ h
      simp [charListLe] at h
  | _ :: _, [] => by
      intro h _
      simp [charListLe] at h
  | a :: as, b :: bs => by
      intro h1 h2
      by_cases hab : a < b
      · simp [charListLe, hab, lt_asymm hab] at h2
      · by_cases hba : b < a
        · simp [charListLe, hab, hba] at h1
        · have habeq : a = b := le_antisymm (not_lt.mp hba) (not_lt.mp hab)
          subst habeq
          simp [charListLe, lt_irrefl] at h1 h2
          rw [charListLe_antisymm as bs h1 h2]

theorem strLe_antisymm {a b : String} (h1 : strLe a b = true) (h2 : strLe b a = true) :
    a = b := by
  cases a with
  | mk da =>
      cases b with
      | mk db =>
          rw [charListLe_antisymm da db h1 h2]

/-- Ordering of tags by key used by `areTagsIdentical`; models sorting with
the comparator `(a, b) => a.key.localeCompare(b.key)`. -/
def tagKeyLe (a b : Tag) : Prop := strLe a.key b.key = true

instance : DecidableRel tagKeyLe :=
  fun a b => inferInstanceAs (Decidable (strLe a.key b.key = true))

instance : IsTotal Tag tagKeyLe := ⟨fun a b => charListLe_total a.key.data b.key.data⟩

instance : IsTrans Tag tagKeyLe :=
  ⟨fun _ _ _ h1 h2 => charListLe_trans _ _ _ h1 h2⟩

/-- Model of `[...tags].sort((a, b) => a.key.localeCompare(b.key))` — JavaScript array
sort is stable, as is insertion sort. -/
def sortTagsByKey (ts : List Tag) : List Tag := ts.insertionSort tagKeyLe

/-- The element-wise comparison loop of `areTagsIdentical`: walks two
(equal-length) sorted lists and compares key and value at each index. -/
def tagListsPairwiseEqual : List Tag → List Tag → Bool
  | [], [] => true
  | a :: as, b :: bs => a.key == b.key && a.value == b.value && tagListsPairwiseEqual as bs
  | _, _ => false

/-- Model of `ParameterStoreService.areTagsIdentical` (src/unnamed/part_009, lines
582-600): differing lengths are an immediate difference; otherwise both sides
are sorted by key and compared pairwise. -/
def areTagsIdentical (existingTags newTags : List Tag) : Bool :=
  if existingTags.length ≠ newTags.length then false
  else tagListsPairwiseEqual (sortTagsByKey existingTags) (sortTagsByKey newTags)

/-- Model of `ParameterStoreService.isParameterIdentical` (src/unnamed/part_009, lines
549-580).  `x || ''` on an optional string is `Option.getD x ""`; on the
remote side the fields are plain strings, on which `|| ''` is the identity. -/
def isParameterIdentical (existing : ParameterFromStore) (parameter : Parameter) : Bool :=
  if existing.value ≠ parameter.value then false
  else if existing.type ≠ parameter.type then false
  else if existing.description ≠ parameter.description.getD "" then false
  else if existing.kmsKeyId ≠ parameter.kmsKeyId.getD "" then false
  else if ¬ areTagsIdentical existing.tags (parameter.tags.getD []) then false
  else true

/-- Outcome of `getParameter(name)` as observed by `calculateDiff`:
the parameter was found, the store reported `ParameterNotFound` (the method
returns `null`), or the fetch threw some other error. -/
inductive FetchResult
  | found (p : ParameterFromStore)
  | notFound
  | fetchError
deriving DecidableEq, Repr

/-- Change classification (`type` field of `ParameterChange`). -/
inductive ChangeType
  | create
  | update
  | skip
deriving DecidableEq, Repr

/-- One entry of the diff (`ParameterChange`). -/
structure ParameterChange where
  type : ChangeType
  parameter : Parameter
  existing : Option ParameterFromStore
  reason : String
deriving DecidableEq, Repr

/-- The running counters of `calculateDiff`. -/
structure DiffSummary where
  create : Nat
  update : Nat
  delete : Nat
  skip : Nat
deriving DecidableEq, Repr

/-- Model of `DiffResult`: the change list plus the count summary. -/
structure DiffResult where
  changes : List ParameterChange
  summary : DiffSummary
deriving DecidableEq, Repr

/-- The body of the `calculateDiff` loop for one desired parameter
(src/unnamed/part_009, lines 526-544): `NotFound` yields a create, a found and
identical parameter a skip, a found and different parameter an update, and any
other fetch error falls back to a create. -/
def classifyParameter (fetch : String → FetchResult) (parameter : Parameter) : ParameterChange :=
  match fetch parameter.name with
  | FetchResult.notFound =>
      ⟨ChangeType.create, parameter, none, "Parameter does not exist"⟩
  | FetchResult.found existing =>
      if isParameterIdentical existing parameter then
        ⟨ChangeType.skip, parameter, some existing, "No changes"⟩
      else
        ⟨ChangeType.update, parameter, some existing, "Parameter values differ"⟩
  | FetchResult.fetchError =>
      ⟨ChangeType.create, parameter, none, "Error retrieving existing parameter"⟩

/-- Increment of `summary.<kind>` for the classified change. -/
def bumpSummary (s : DiffSummary) : ChangeType → DiffSummary
  | ChangeType.create => { s with create := s.create + 1 }
  | ChangeType.update => { s with update := s.update + 1 }
  | ChangeType.skip => { s with skip := s.skip + 1 }

/-- One iteration of the `calculateDiff` loop: classify, push the change,
bump the summary. -/
def diffStep (fetch : String → FetchResult) (acc : DiffResult) (p : Parameter) : DiffResult :=
  let c := classifyParameter fetch p
  { changes := acc.changes ++ [c], summary := bumpSummary acc.summary c.type }

/-- Model of `ParameterStoreService.calculateDiff` (src/unnamed/part_009, lines
522-547), with the remote read abstracted as `fetch`. -/
def calculateDiff (fetch : String → FetchResult) (parameters : List Parameter) : DiffResult :=
  parameters.foldl (diffStep fetch) ⟨[], ⟨0, 0, 0, 0⟩⟩

/-- Remote store contents and desired parameter used to witness the diff
classification theorem. -/
def c1Remote : ParameterFromStore := ⟨"/app/x", "v1", "String", "", "", 1, []⟩

def c1Fetch : String → FetchResult :=
  fun n => if n = "/app/x" then FetchResult.found c1Remote else FetchResult.notFound

def c1Param : Parameter := ⟨"/app/x", "v1", "String", none, none, none⟩

/-- Strict version of the tag-key ordering. -/
def tagKeyLt (a b : Tag) : Prop := tagKeyLe a b ∧ a.key ≠ b.key

def c8Fetch : String → FetchResult := fun _ => FetchResult.fetchError

def c8Param : Parameter := ⟨"/app/x", "v1", "String", none, none, none⟩

/-- The record the remote store keeps per parameter name (model of one SSM
parameter resource: value, type, description, encryption key, tags and
version). -/
structure StoredParam where
  value : String
  type : String
  description : String
  keyId : String
  tags : List Tag
  version : Nat
deriving DecidableEq, Repr

/-- Remote store state: contents per parameter name. -/
def Store := String → Option StoredParam

/-- Model of `getParameter` (src/unnamed/part_009, lines 102-133) composed
with `getParameterDescription` and `getParameterTags`: the underlying
GetParameter call does not return the KMS key id, so the fetched record's
`kmsKeyId` is always the empty string regardless of the stored key. -/
def getParameterModel (store : Store) (name : String) : FetchResult :=
  match store name with
  | none => FetchResult.notFound
  | some sp =>
      FetchResult.found ⟨name, sp.value, sp.type, sp.description, "", sp.version, sp.tags⟩

/-- Action recorded per snapshot entry (`'created' | 'updated'`). -/
inductive RollbackAction
  | created
  | updated
deriving DecidableEq, Repr

/-- One element of `RollbackState.affectedParameters`
(src/src/services/rollback.service.ts, lines 11-19). -/
structure AffectedParameter where
  name : String
  action : RollbackAction
  previousValue : Option String
  previousType : Option String
  previousDescription : Option String
  previousKmsKeyId : Option String
  previousTags : Option (List Tag)
deriving DecidableEq, Repr

/-- Model of `RollbackState` (rollback.service.ts, lines 7-20).  `putTimestamp` is an
ISO-8601 string in the file; the expiry check only uses its value in
milliseconds since the epoch, which is how it is modelled. -/
structure RollbackState where
  putTimestamp : Nat
  region : String
  profile : Option String
  affectedParameters : List AffectedParameter
deriving DecidableEq, Repr

/-- The `updated` entry `saveRollbackState` records for an existing
parameter: full prior state. -/
def toUpdatedEntry (p : ParameterFromStore) : AffectedParameter :=
  ⟨p.name, RollbackAction.updated, some p.value, some p.type, some p.description,
    some p.kmsKeyId, some p.tags⟩

/-- The entry list built by `RollbackService.saveRollbackState`
(rollback.service.ts, lines 48-78): an `updated` entry per existing
parameter, then a `created` entry per new name that collides with neither the
existing parameters nor an entry already recorded. -/
def buildRollbackEntries (existingParameters : List ParameterFromStore)
    (newParameterNames : List String) : List AffectedParameter :=
  newParameterNames.foldl
    (fun acc name =>
      if ¬ (existingParameters.any (fun p => p.name == name))
          ∧ ¬ (acc.any (fun e => e.name == name)) then
        acc ++ [⟨name, RollbackAction.created, none, none, none, none, none⟩]
      else acc)
    (existingParameters.map toUpdatedEntry)

/-- Model of `RollbackService.saveRollbackState` (rollback.service.ts, lines 39-85):
the snapshot written to the single slot. -/
def saveRollbackState (existingParameters : List ParameterFromStore)
    (newParameterNames : List String) (region : String) (profile : Option String)
    (now : Nat) : RollbackState :=
  ⟨now, region, profile, buildRollbackEntries existingParameters newParameterNames⟩

/-- Seven days in milliseconds.  `loadRollbackState` discards a snapshot when
`(now - putTimestamp) / (1000*60*60*24) > 7`, which for the exact float
arithmetic involved is `now - putTimestamp > 604800000`. -/
def SNAPSHOT_EXPIRY_MS : Nat := 7 * 24 * 60 * 60 * 1000

/-- Model of `RollbackService.loadRollbackState` (rollback.service.ts, lines 90-115):
returns the loaded snapshot (or none) together with the slot contents after
the call — loading an expired snapshot clears the slot as a side effect.
A timestamp in the future yields a non-positive age, which is not expired,
matching the source; truncated subtraction models this. -/
def loadRollbackState (slot : Option RollbackState) (now : Nat) :
    Option RollbackState × Option RollbackState :=
  match slot with
  | none => (none, none)
  | some st =>
      if now - st.putTimestamp > SNAPSHOT_EXPIRY_MS then (none, none)
      else (some st, some st)

/-- Remote calls and snapshot-slot writes issued by a sync or rollback run,
in order of issue. -/
inductive SyncEvent
  | saveSnapshot (st : RollbackState)
  | askConfirmation
  | remotePut (name value type description keyId : String) (tags : List Tag) (overwrite : Bool)
  | remoteAddTags (name : String) (tags : List Tag)
  | remoteDelete (name : String)
deriving DecidableEq, Repr

/-- Whether an event is a remote mutation (as opposed to the local snapshot
write or the prompt). -/
def SyncEvent.isRemoteMutation : SyncEvent → Bool
  | SyncEvent.saveSnapshot _ => false
  | SyncEvent.askConfirmation => false
  | SyncEvent.remotePut _ _ _ _ _ _ _ => true
  | SyncEvent.remoteAddTags _ _ => true
  | SyncEvent.remoteDelete _ => true

/-- Tag merging performed by the remote AddTagsToResource call: listed keys
are overwritten, other existing tags are kept.  (Model of the external
API's semantics.) -/
def mergeTags (oldTags newTags : List Tag) : List Tag :=
  oldTags.filter (fun t => ! newTags.any (fun n => n.key == t.key)) ++ newTags

/-- Model of `SyncResult` (src/src/types). -/
structure SyncResult where
  success : Nat
  failed : Nat
  updated : Nat
  skipped : Nat
  deleted : Nat
  errors : List String
deriving DecidableEq, Repr

def zeroSyncResult : SyncResult := ⟨0, 0, 0, 0, 0, []⟩

/-- Effect on the remote store of the non-dry-run `putParameter` call for one
actionable change (src/unnamed/part_009, lines 135-216 applied at lines
484-505): a create sends the tags inside the put itself; an update sends an
overwrite put without tags and then a separate AddTagsToResource call when
the desired tag list is non-empty, which merges into the existing tags.
The store keeps the put's value, type, description and key id (the key id
written as the normalised string; it is never read back by `getParameter`). -/
def applyChange (store : Store) (c : ParameterChange) : Store × List SyncEvent :=
  let p := c.parameter
  match c.type with
  | ChangeType.create =>
      (fun n => if n = p.name then
          some ⟨p.value, p.type, p.description.getD "", p.kmsKeyId.getD "",
            p.tags.getD [], 1⟩
        else store n,
       [SyncEvent.remotePut p.name p.value p.type (p.description.getD "")
          (p.kmsKeyId.getD "") (p.tags.getD []) false])
  | ChangeType.update =>
      let oldTags := ((store p.name).map StoredParam.tags).getD []
      let oldVersion := ((store p.name).map StoredParam.version).getD 0
      let putEv := SyncEvent.remotePut p.name p.value p.type (p.description.getD "")
          (p.kmsKeyId.getD "") [] true
      if p.tags.getD [] ≠ [] then
        (fun n => if n = p.name then
            some ⟨p.value, p.type, p.description.getD "", p.kmsKeyId.getD "",
              mergeTags oldTags (p.tags.getD []), oldVersion + 1⟩
          else store n,
         [putEv, SyncEvent.remoteAddTags p.name (p.tags.getD [])])
      else
        (fun n => if n = p.name then
            some ⟨p.value, p.type, p.description.getD "", p.kmsKeyId.getD "",
              oldTags, oldVersion + 1⟩
          else store n,
         [putEv])
  | ChangeType.skip => (store, [])

/-- One iteration of the `syncParameters` write loop over an actionable
change, on the success path: apply the put and bump `success` (creates) or
`updated` (updates). -/
def syncStep (acc : Store × List SyncEvent × SyncResult) (c : ParameterChange) :
    Store × List SyncEvent × SyncResult :=
  let store := acc.1
  let evs := acc.2.1
  let r := acc.2.2
  let out := applyChange store c
  match c.type with
  | ChangeType.create => (out.1, evs ++ out.2, { r with success := r.success + 1 })
  | ChangeType.update => (out.1, evs ++ out.2, { r with updated := r.updated + 1 })
  | ChangeType.skip => (out.1, evs ++ out.2, r)

/-- The existing parameters captured from the diff for the snapshot
(update entries with their fetched prior state). -/
def diffExisting (changes : List ParameterChange) : List ParameterFromStore :=
  changes.filterMap
    (fun c => match c.type, c.existing with
      | ChangeType.update, some e => some e
      | _, _ => none)

/-- The names of the parameters the diff will create. -/
def diffNewNames (changes : List ParameterChange) : List String :=
  changes.filterMap
    (fun c => match c.type with
      | ChangeType.create => some c.parameter.name
      | _ => none)

/-- Output of one `syncParameters` run: result, final remote store, snapshot
slot after the run, and the ordered event trace. -/
structure SyncRun where
  result : SyncResult
  store : Store
  slot : Option RollbackState
  events : List SyncEvent

/-- Model of `ParameterStoreService.syncParameters` (src/unnamed/part_009, lines
419-520), with the remote store and the snapshot slot explicit, the
operator's answer to the prompt a parameter, and each remote call modelled on
its success path.  The steps in source order: compute the diff; when not a
dry run and the diff has a create or update, build and save the rollback
snapshot; when not a dry run, ask for confirmation (the prompt is skipped and
treated as yes when the diff has no create and no update) and return the
zero result if declined; then apply the non-skip changes in order (batch
size `PUT_CONCURRENT_LIMIT = 1`, fully sequential).  A dry run performs
read-only checks: no store change and no remote mutation events. -/
def syncParameters (store : Store) (slot : Option RollbackState)
    (parameters : List Parameter) (dryRun : Bool) (region : String)
    (profile : Option String) (confirmAnswer : Bool) (now : Nat) : SyncRun :=
  let diff := calculateDiff (getParameterModel store) parameters
  let hasChanges : Prop := diff.summary.create > 0 ∨ diff.summary.update > 0
  let snapshot := saveRollbackState (diffExisting diff.changes)
      (diffNewNames diff.changes) region profile now
  let slot2 := if ¬ dryRun ∧ hasChanges then some snapshot else slot
  let evs1 := if ¬ dryRun ∧ hasChanges then [SyncEvent.saveSnapshot snapshot] else []
  let prompted : Prop := ¬ dryRun ∧ ¬ (diff.summary.create = 0 ∧ diff.summary.update = 0)
  let evs2 := if prompted then [SyncEvent.askConfirmation] else []
  let proceed := if prompted then confirmAnswer else true
  if ¬ proceed then ⟨zeroSyncResult, store, slot2, evs1 ++ evs2⟩
  else
    let actionable := diff.changes.filter (fun c => c.type != ChangeType.skip)
    let skipCount := (diff.changes.filter (fun c => c.type == ChangeType.skip)).length
    if dryRun then
      let r := actionable.foldl
        (fun r c => match c.type with
          | ChangeType.create => { r with success := r.success + 1 }
          | ChangeType.update => { r with updated := r.updated + 1 }
          | ChangeType.skip => r)
        { zeroSyncResult with skipped := skipCount }
      ⟨r, store, slot2, evs1 ++ evs2⟩
    else
      let out := actionable.foldl syncStep
        (store, [], { zeroSyncResult with skipped := skipCount })
      ⟨out.2.2, out.1, slot2, evs1 ++ evs2 ++ out.2.1⟩

/-- Result record of `rollbackParameters`. -/
structure RollbackResult where
  success : Nat
  failed : Nat
  errors : List String
deriving DecidableEq, Repr

/-- Effect of one snapshot entry during rollback (src/unnamed/part_009, lines
832-880), on the success path: a `created` entry is deleted; an `updated`
entry with a recorded prior value is restored by an overwrite put carrying
the recorded value, type (defaulting to String), description and key id,
followed by a tag-restore call when non-empty prior tags were recorded; an
`updated` entry with no recorded prior value does nothing. -/
def applyRollbackEntry (acc : Store × List SyncEvent × Nat) (e : AffectedParameter) :
    Store × List SyncEvent × Nat :=
  let store := acc.1
  let evs := acc.2.1
  let succ := acc.2.2
  match e.action with
  | RollbackAction.created =>
      (fun n => if n = e.name then none else store n,
       evs ++ [SyncEvent.remoteDelete e.name], succ + 1)
  | RollbackAction.updated =>
      match e.previousValue with
      | none => (store, evs, succ)
      | some v =>
          let t := e.previousType.getD "String"
          let d := e.previousDescription.getD ""
          let k := e.previousKmsKeyId.getD ""
          let oldTags := ((store e.name).map StoredParam.tags).getD []
          let oldVersion := ((store e.name).map StoredParam.version).getD 0
          let putEv := SyncEvent.remotePut e.name v t d k [] true
          let restoreTags := e.previousTags.getD []
          if restoreTags ≠ [] then
            (fun n => if n = e.name then
                some ⟨v, t, d, k, mergeTags oldTags restoreTags, oldVersion + 1⟩
              else store n,
             evs ++ [putEv, SyncEvent.remoteAddTags e.name restoreTags], succ + 1)
          else
            (fun n => if n = e.name then some ⟨v, t, d, k, oldTags, oldVersion + 1⟩
              else store n,
             evs ++ [putEv], succ + 1)

/-- Output of one `rollbackParameters` run. -/
structure RollbackRun where
  result : RollbackResult
  store : Store
  events : List SyncEvent
  slot : Option RollbackState

/-- Model of `ParameterStoreService.rollbackParameters` (src/unnamed/part_009, lines
795-896): load the snapshot — when the load yields nothing the run throws the
no-rollback-history error; otherwise ask for confirmation (declined → the
zero result with no remote call), then replay every entry in order (batch
size 1).  The slot is not cleared after a rollback; it only changes if the
load expired it. -/
def rollbackParameters (slot : Option RollbackState) (now : Nat) (confirm : Bool)
    (store : Store) : Except String RollbackRun :=
  match loadRollbackState slot now with
  | (none, _) =>
      Except.error "No rollback state found or rollback functionality not yet implemented"
  | (some st, slotAfter) =>
      if ¬ confirm then Except.ok ⟨⟨0, 0, []⟩, store, [], slotAfter⟩
      else
        let out := st.affectedParameters.foldl applyRollbackEntry (store, [], 0)
        Except.ok ⟨⟨out.2.2, 0, []⟩, out.1, out.2.1, slotAfter⟩

/-- One interaction on a confirmation prompt: the inactivity timer fires, or
a line of input arrives. -/
inductive PromptEvent
  | timeout
  | input (answer : String)
deriving DecidableEq, Repr

/-- Timeout of the put confirmation prompt (src/unnamed/part_009, line 674):
5 minutes, in milliseconds. -/
def PUT_CONFIRM_TIMEOUT_MS : Nat := 300000

/-- Timeout of the rollback confirmation prompt (src/unnamed/part_009, line
966): 30 seconds, in milliseconds. -/
def ROLLBACK_CONFIRM_TIMEOUT_MS : Nat := 30000

/-- Executable model of JavaScript `String.prototype.trim`: drop whitespace
from both ends of the character list. -/
def jsTrim (s : String) : String :=
  ⟨((s.data.dropWhile Char.isWhitespace).reverse.dropWhile Char.isWhitespace).reverse⟩

/-- Executable model of JavaScript `String.prototype.toLowerCase` for the
ASCII answers the prompts compare against. -/
def jsToLower (s : String) : String := ⟨s.data.map Char.toLower⟩

/-- The askQuestion answer loop of `getUserConfirmation`
(src/unnamed/part_009, lines 676-702), entered with the timer already
cleared: an empty answer cancels, y/yes proceeds, n/no cancels, and any
other answer runs askQuestion again — but the interface was already closed
in the first callback, so whether a further answer is ever delivered is
environment-dependent; the theorems therefore use only the empty
continuation, on which the result is still pending (`none`). -/
def askQuestionLoop : List String → Option Bool
  | [] => none
  | answer :: rest =>
      if jsTrim answer = "" then some false
      else
        let response := jsTrim (jsToLower answer)
        if response = "y" ∨ response = "yes" then some true
        else if response = "n" ∨ response = "no" then some false
        else askQuestionLoop rest

/-- Model of `getUserConfirmation` (src/unnamed/part_009, lines 642-704):
the 5-minute timer races only the first answer, because the question
callback runs clearTimeout, removes the signal handler and closes the
readline before it inspects the answer, and the re-asked question never
re-arms the timer; so the first interaction is a timeout or an answer, and
everything after it is answers only. -/
def getUserConfirmation : PromptEvent → List String → Option Bool
  | PromptEvent.timeout, _ => some false
  | PromptEvent.input answer, rest => askQuestionLoop (answer :: rest)

/-- Model of `getUserConfirmationWithPrompt` (src/unnamed/part_009, lines 957-991),
used by rollback: a single question with a 30-second timer; only y/yes
proceeds, any other input — empty or invalid — declines, as does the
timeout. -/
def getUserConfirmationWithPrompt : PromptEvent → Bool
  | PromptEvent.timeout => false
  | PromptEvent.input answer =>
      let a := jsToLower (jsTrim answer)
      a == "y" || a == "yes"

/-- Model of `RATE_LIMIT_CONFIG.MAX_RETRY_ATTEMPTS` (src/unnamed/part_010). -/
def MAX_RETRY_ATTEMPTS : Nat := 10

/-- Model of `RATE_LIMIT_CONFIG.INITIAL_RETRY_DELAY_MS`. -/
def INITIAL_RETRY_DELAY_MS : Nat := 1500

/-- Model of `RATE_LIMIT_CONFIG.MAX_RETRY_DELAY_MS`. -/
def MAX_RETRY_DELAY_MS : Nat := 60000

/-- Model of `RATE_LIMIT_CONFIG.RETRY_BACKOFF_MULTIPLIER`. -/
def RETRY_BACKOFF_MULTIPLIER : Nat := 2

/-- Outcome of one SSM send, as classified by the retry loop's
`isRateLimitError` test. -/
inductive SendOutcome
  | ok
  | throttle
  | otherError
deriving DecidableEq, Repr

/-- The base wait computed after failed attempt number `attempt`:
`min(INITIAL_RETRY_DELAY_MS * RETRY_BACKOFF_MULTIPLIER^(attempt-1),
MAX_RETRY_DELAY_MS)`; the random 0-200 ms jitter is added on top and is
modelled by an explicit `jitter` function. -/
def backoffDelay (attempt : Nat) : Nat :=
  min (INITIAL_RETRY_DELAY_MS * RETRY_BACKOFF_MULTIPLIER ^ (attempt - 1)) MAX_RETRY_DELAY_MS

/-- Result of running the retry loop: how many sends were made, the waits
taken between them (base delay plus jitter, in order), and the error
surfaced to the caller (`none` on success). -/
structure RetryRun where
  attemptsMade : Nat
  delays : List Nat
  surfaced : Option SendOutcome
deriving DecidableEq, Repr

set_option linter.unusedVariables false in
/-- Model of `ParameterStoreService.putParameterWithRetry` (src/unnamed/part_009,
lines 304-336): send; on a throttling-class error with
`attempt <= MAX_RETRY_ATTEMPTS`, wait the backoff plus jitter and recurse
with `attempt + 1`; otherwise rethrow.  `send n` is the outcome of the n-th
send. -/
def putParameterWithRetryAux (send : Nat → SendOutcome) (jitter : Nat → Nat)
    (attempt : Nat) : RetryRun :=
  match send attempt with
  | SendOutcome.ok => ⟨1, [], none⟩
  | SendOutcome.otherError => ⟨1, [], some SendOutcome.otherError⟩
  | SendOutcome.throttle =>
      if hle : attempt ≤ MAX_RETRY_ATTEMPTS then
        let rest := putParameterWithRetryAux send jitter (attempt + 1)
        ⟨rest.attemptsMade + 1, (backoffDelay attempt + jitter attempt) :: rest.delays,
          rest.surfaced⟩
      else ⟨1, [], some SendOutcome.throttle⟩
termination_by MAX_RETRY_ATTEMPTS + 1 - attempt
decreasing_by simp only [MAX_RETRY_ATTEMPTS] at hle ⊢; omega

/-- The retry loop entered at attempt 1, as `putParameter` does. -/
def putParameterWithRetry (send : Nat → SendOutcome) (jitter : Nat → Nat) : RetryRun :=
  putParameterWithRetryAux send jitter 1

/-- Model of `deleteParameterWithRetry` (src/unnamed/part_009, lines 342-374),
a verbatim copy of the put retry loop around a DeleteParameter send. -/
def deleteParameterWithRetry (send : Nat → SendOutcome) (jitter : Nat → Nat) : RetryRun :=
  putParameterWithRetryAux send jitter 1

/-- The snapshot `syncParameters` builds and saves from the diff. -/
def syncSnapshot (store : Store) (ps : List Parameter) (region : String)
    (profile : Option String) (now : Nat) : RollbackState :=
  saveRollbackState (diffExisting (calculateDiff (getParameterModel store) ps).changes)
    (diffNewNames (calculateDiff (getParameterModel store) ps).changes) region profile now

/-- The write loop of `syncParameters`: fold over the actionable changes
starting from the initial store, no events, and the skip count. -/
def syncWriteFold (store : Store) (ps : List Parameter) :
    Store × List SyncEvent × SyncResult :=
  ((calculateDiff (getParameterModel store) ps).changes.filter
      (fun c => c.type != ChangeType.skip)).foldl syncStep
    (store, [],
      { zeroSyncResult with
          skipped := ((calculateDiff (getParameterModel store) ps).changes.filter
            (fun c => c.type == ChangeType.skip)).length })

/-- Shared concrete inputs for the sync witnesses: an empty remote store and
one desired parameter, whose diff is a single create. -/
def wStore : Store := fun _ => none

def wParam : Parameter := ⟨"/app/x", "v1", "String", none, none, none⟩

/-- A snapshot captured at time zero, for the expiry witness. -/
def c7State : RollbackState := ⟨0, "ap-northeast-1", none, []⟩

/-- An occupied, unexpired snapshot slot for the confirmation witness. -/
def c9State : RollbackState :=
  ⟨0, "r", none, [⟨"/app/x", RollbackAction.created, none, none, none, none, none⟩]⟩

/-- Snapshot and store used to witness the rollback-reversal theorem: one
parameter created by the put (to be deleted) and one overwritten (to be
restored to its prior value). -/
def c2State : RollbackState :=
  ⟨0, "r", none,
   [⟨"/b", RollbackAction.created, none, none, none, none, none⟩,
    ⟨"/a", RollbackAction.updated, some "old", some "String", some "", some "", some []⟩]⟩

def c2Store : Store := fun n =>
  if n = "/a" then some ⟨"new", "String", "", "", [], 2⟩
  else if n = "/b" then some ⟨"x", "String", "", "", [], 1⟩
  else none

/-- The stored record at a change's own name after its put: what
`applyChange` leaves at `c.parameter.name` as a function of the prior
contents there. -/
def changeResult (old : Option StoredParam) (c : ParameterChange) : Option StoredParam :=
  let p := c.parameter
  match c.type with
  | ChangeType.create =>
      some ⟨p.value, p.type, p.description.getD "", p.kmsKeyId.getD "", p.tags.getD [], 1⟩
  | ChangeType.update =>
      let oldTags := (old.map StoredParam.tags).getD []
      let oldVersion := (old.map StoredParam.version).getD 0
      if p.tags.getD [] ≠ [] then
        some ⟨p.value, p.type, p.description.getD "", p.kmsKeyId.getD "",
          mergeTags oldTags (p.tags.getD []), oldVersion + 1⟩
      else
        some ⟨p.value, p.type, p.description.getD "", p.kmsKeyId.getD "",
          oldTags, oldVersion + 1⟩
  | ChangeType.skip => old

/-- Desired parameter carrying an encryption key id, for the idempotence
counterexample. -/
def c5Param : Parameter := ⟨"/app/x", "v1", "String", none, some "alias/my-key", none⟩

theorem classifyParameter_parameter (fetch : String → FetchResult) (p : Parameter) :
    (classifyParameter fetch p).parameter = p := by
  unfold classifyParameter
  cases fetch p.name with
  | found e => by_cases h : isParameterIdentical e p <;> simp [h]
  | notFound => rfl
  | fetchError => rfl

theorem diffFold_changes (fetch : String → FetchResult) :
    ∀ (ps : List Parameter) (acc : DiffResult),
      (ps.foldl (diffStep fetch) acc).changes
        = acc.changes ++ ps.map (classifyParameter fetch)
  | [], acc => by simp
  | p :: ps, acc => by
      rw [List.foldl_cons, diffFold_changes fetch ps]
      simp [diffStep]

theorem calculateDiff_changes (fetch : String → FetchResult) (ps : List Parameter) :
    (calculateDiff fetch ps).changes = ps.map (classifyParameter fetch) := by
  unfold calculateDiff
  rw [diffFold_changes]
  simp

set_option linter.unnecessarySeqFocus false in
theorem diffFold_summary (fetch : String → FetchResult) :
    ∀ (ps : List Parameter) (acc : DiffResult),
      ((ps.foldl (diffStep fetch) acc).summary.create
          = acc.summary.create
            + ps.countP (fun p => (classifyParameter fetch p).type == ChangeType.create))
      ∧ ((ps.foldl (diffStep fetch) acc).summary.update
          = acc.summary.update
            + ps.countP (fun p => (classifyParameter fetch p).type == ChangeType.update))
      ∧ ((ps.foldl (diffStep fetch) acc).summary.skip
          = acc.summary.skip
            + ps.countP (fun p => (classifyParameter fetch p).type == ChangeType.skip))
  | [], acc => by simp
  | p :: ps, acc => by
      obtain ⟨h1, h2, h3⟩ := diffFold_summary fetch ps (diffStep fetch acc p)
      rw [List.foldl_cons]
      refine ⟨?_, ?_, ?_⟩ <;>
        · first
            | rw [h1] | rw [h2] | rw [h3]
          cases htype : (classifyParameter fetch p).type <;>
            simp [diffStep, bumpSummary, htype, List.countP_cons] <;> omega

theorem calculateDiff_summary_create (fetch : String → FetchResult) (ps : List Parameter) :
    (calculateDiff fetch ps).summary.create
      = ps.countP (fun p => (classifyParameter fetch p).type == ChangeType.create) := by
  have h := (diffFold_summary fetch ps ⟨[], ⟨0, 0, 0, 0⟩⟩).1
  simpa [calculateDiff] using h

theorem calculateDiff_summary_update (fetch : String → FetchResult) (ps : List Parameter) :
    (calculateDiff fetch ps).summary.update
      = ps.countP (fun p => (classifyParameter fetch p).type == ChangeType.update) := by
  have h := (diffFold_summary fetch ps ⟨[], ⟨0, 0, 0, 0⟩⟩).2.1
  simpa [calculateDiff] using h

theorem calculateDiff_summary_skip (fetch : String → FetchResult) (ps : List Parameter) :
    (calculateDiff fetch ps).summary.skip
      = ps.countP (fun p => (classifyParameter fetch p).type == ChangeType.skip) := by
  have h := (diffFold_summary fetch ps ⟨[], ⟨0, 0, 0, 0⟩⟩).2.2
  simpa [calculateDiff] using h

/-- C1: within a diff, a desired parameter is classified Skip exactly when the
fetch found a remote entry and every compared field is equal — value exactly,
type exactly, description and key id after normalising unset to the empty
string, and the tag sets under the order-independent comparison; a found but
different entry is classified Update, and a NotFound fetch a Create. -/
theorem calculateDiff_classification (fetch : String → FetchResult) (ps : List Parameter)
    (c : ParameterChange) (hc : c ∈ (calculateDiff fetch ps).changes) :
    (c.type = ChangeType.skip ↔
      ∃ e, fetch c.parameter.name = FetchResult.found e
        ∧ e.value = c.parameter.value
        ∧ e.type = c.parameter.type
        ∧ e.description = c.parameter.description.getD ""
        ∧ e.kmsKeyId = c.parameter.kmsKeyId.getD ""
        ∧ areTagsIdentical e.tags (c.parameter.tags.getD []) = true)
    ∧ (∀ e, fetch c.parameter.name = FetchResult.found e →
        isParameterIdentical e c.parameter = false → c.type = ChangeType.update)
    ∧ (fetch c.parameter.name = FetchResult.notFound → c.type = ChangeType.create) := by
  rw [calculateDiff_changes] at hc
  obtain ⟨p, _, hcp⟩ := List.mem_map.mp hc
  have hparam : c.parameter = p := by rw [← hcp, classifyParameter_parameter]
  subst hcp
  rw [hparam]
  have hident : ∀ e : ParameterFromStore,
      isParameterIdentical e p = true ↔
        (e.value = p.value ∧ e.type = p.type
          ∧ e.description = p.description.getD ""
          ∧ e.kmsKeyId = p.kmsKeyId.getD ""
          ∧ areTagsIdentical e.tags (p.tags.getD []) = true) := by
    intro e
    unfold isParameterIdentical
    by_cases h1 : e.value = p.value <;>
      by_cases h2 : e.type = p.type <;>
        by_cases h3 : e.description = p.description.getD "" <;>
          by_cases h4 : e.kmsKeyId = p.kmsKeyId.getD "" <;>
            by_cases h5 : areTagsIdentical e.tags (p.tags.getD []) = true <;>
              simp [h1, h2, h3, h4, h5]
  unfold classifyParameter
  cases hf : fetch p.name with
  | found e =>
      dsimp only
      by_cases h : isParameterIdentical e p = true
      · rw [if_pos h]
        refine ⟨?_, ?_, ?_⟩
        · constructor
          · intro _
            exact ⟨e, rfl, (hident e).mp h⟩
          · intro _
            rfl
        · intro e2 he2 hne
          rw [FetchResult.found.injEq] at he2
          subst he2
          rw [h] at hne
          exact absurd hne (by simp)
        · intro hnf
          exact absurd hnf (by simp)
      · rw [if_neg h]
        refine ⟨?_, fun _ _ _ => rfl, fun hnf => absurd hnf (by simp)⟩
        constructor
        · intro habs
          exact absurd habs (by simp)
        · rintro ⟨e2, he2, hfields⟩
          rw [FetchResult.found.injEq] at he2
          subst he2
          exact absurd ((hident e).mpr hfields) h
  | notFound =>
      refine ⟨?_, ?_, fun _ => rfl⟩
      · constructor
        · intro habs
          exact absurd habs (by simp)
        · rintro ⟨e2, he2, -⟩
          exact absurd he2 (by simp)
      · intro e2 he2
        exact absurd he2 (by simp)
  | fetchError =>
      refine ⟨?_, ?_, ?_⟩
      · constructor
        · intro habs
          exact absurd habs (by simp)
        · rintro ⟨e2, he2, -⟩
          exact absurd he2 (by simp)
      · intro e2 he2
        exact absurd he2 (by simp)
      · intro hnf
        exact absurd hnf (by simp)

/-- Witness for the diff classification theorem: a byte-identical remote entry
is classified Skip. -/
theorem calculateDiff_classification_witness :
    (classifyParameter c1Fetch c1Param).type = ChangeType.skip := by
  have h := calculateDiff_classification c1Fetch [c1Param]
      (classifyParameter c1Fetch c1Param)
      (by rw [calculateDiff_changes]
          exact List.mem_map_of_mem _ (List.mem_singleton_self _))
  refine h.1.mpr ⟨c1Remote, ?_, ?_, ?_, ?_, ?_, ?_⟩ <;> decide

theorem tagListsPairwiseEqual_refl : ∀ l : List Tag, tagListsPairwiseEqual l l = true
  | [] => rfl
  | a :: l => by
      simp [tagListsPairwiseEqual, tagListsPairwiseEqual_refl l]

/-- Two lists that are permutations of each other and both strictly sorted on
tag key are equal. -/
theorem eq_of_perm_of_pairwise_keyLt {l₁ l₂ : List Tag}
    (hp : l₁.Perm l₂) (h₁ : l₁.Pairwise tagKeyLt)
    (h₂ : l₂.Pairwise tagKeyLt) : l₁ = l₂ := by
  induction l₁ generalizing l₂ with
  | nil => exact hp.nil_eq
  | cons a t ih =>
      cases l₂ with
      | nil => exact absurd hp.eq_nil (by simp)
      | cons b t₂ =>
          have hab : a = b := by
            by_contra hne
            have ha : a ∈ b :: t₂ := hp.mem_iff.mp (List.mem_cons_self a t)
            have hb : b ∈ a :: t := hp.mem_iff.mpr (List.mem_cons_self b t₂)
            have ha2 : a ∈ t₂ := by
              rcases List.mem_cons.mp ha with h | h
              · exact absurd h hne
              · exact h
            have hb2 : b ∈ t := by
              rcases List.mem_cons.mp hb with h | h
              · exact absurd h.symm hne
              · exact h
            have hlt1 : tagKeyLt b a := (List.pairwise_cons.mp h₂).1 a ha2
            have hlt2 : tagKeyLt a b := (List.pairwise_cons.mp h₁).1 b hb2
            exact hlt2.2 (strLe_antisymm hlt2.1 hlt1.1)
          subst hab
          rw [ih hp.cons_inv h₁.of_cons h₂.of_cons]

/-- A list sorted by key whose keys are pairwise distinct is strictly sorted
by key. -/
theorem sorted_nodupKeys_pairwise_lt {l : List Tag}
    (hs : l.Sorted tagKeyLe) (hn : (l.map Tag.key).Nodup) :
    l.Pairwise tagKeyLt := by
  have hne : l.Pairwise (fun a b : Tag => a.key ≠ b.key) := List.pairwise_map.mp hn
  exact (hs.and hne).imp (fun h => ⟨h.1, h.2⟩)

/-- C6 counterexample: the claim asserts order-independence for all tag lists,
but for two permuted lists sharing a duplicated key the stable key-only sort
leaves the equal-key pairs in different relative orders, so the comparison
returns false. -/
theorem areTagsIdentical_perm_counterexample :
    ([Tag.mk "a" "1", Tag.mk "a" "2"]).Perm [Tag.mk "a" "2", Tag.mk "a" "1"]
    ∧ areTagsIdentical [Tag.mk "a" "1", Tag.mk "a" "2"]
        [Tag.mk "a" "2", Tag.mk "a" "1"] = false :=
  ⟨List.Perm.swap _ _ _, by decide⟩

/-- C6 amended: tag comparison is order-independent for lists with pairwise
distinct keys — if the two lists are permutations of each other it returns
true — and lists of different lengths always compare unequal. -/
theorem areTagsIdentical_orderIndependent (A B : List Tag) :
    (A.length ≠ B.length → areTagsIdentical A B = false)
    ∧ ((A.map Tag.key).Nodup → A.Perm B → areTagsIdentical A B = true) := by
  constructor
  · intro h
    unfold areTagsIdentical
    rw [if_pos h]
  · intro hn hp
    unfold areTagsIdentical
    rw [if_neg (show ¬ A.length ≠ B.length from fun h => h hp.length_eq)]
    have hpa : (sortTagsByKey A).Perm A := List.perm_insertionSort tagKeyLe A
    have hpb : (sortTagsByKey B).Perm B := List.perm_insertionSort tagKeyLe B
    have hsa : (sortTagsByKey A).Sorted tagKeyLe := List.sorted_insertionSort tagKeyLe A
    have hsb : (sortTagsByKey B).Sorted tagKeyLe := List.sorted_insertionSort tagKeyLe B
    have hnB : (B.map Tag.key).Nodup := ((hp.map Tag.key).nodup_iff).mp hn
    have hnA2 : ((sortTagsByKey A).map Tag.key).Nodup := ((hpa.map Tag.key).nodup_iff).mpr hn
    have hnB2 : ((sortTagsByKey B).map Tag.key).Nodup := ((hpb.map Tag.key).nodup_iff).mpr hnB
    have hperm : (sortTagsByKey A).Perm (sortTagsByKey B) := hpa.trans (hp.trans hpb.symm)
    rw [eq_of_perm_of_pairwise_keyLt hperm
        (sorted_nodupKeys_pairwise_lt hsa hnA2) (sorted_nodupKeys_pairwise_lt hsb hnB2)]
    exact tagListsPairwiseEqual_refl _

/-- Witness for the amended tag-set equality theorem: the spec's own two
examples, with distinct keys. -/
theorem areTagsIdentical_orderIndependent_witness :
    areTagsIdentical [Tag.mk "a" "1", Tag.mk "b" "2"] [Tag.mk "b" "2", Tag.mk "a" "1"] = true
    ∧ areTagsIdentical [Tag.mk "a" "1"] [Tag.mk "a" "1", Tag.mk "b" "2"] = false :=
  ⟨(areTagsIdentical_orderIndependent _ _).2 (by decide) (List.Perm.swap _ _ _),
   (areTagsIdentical_orderIndependent _ _).1 (by decide)⟩

/-- C8: when the fetch of the existing remote state raises a non-NotFound
error, the diff classifies the parameter as Create (optimistic fallback)
instead of propagating the error. -/
theorem calculateDiff_fetchError_create (fetch : String → FetchResult) (ps : List Parameter)
    (p : Parameter) (hp : p ∈ ps) (h : fetch p.name = FetchResult.fetchError) :
    classifyParameter fetch p
      = ⟨ChangeType.create, p, none, "Error retrieving existing parameter"⟩
    ∧ (⟨ChangeType.create, p, none, "Error retrieving existing parameter"⟩ : ParameterChange)
        ∈ (calculateDiff fetch ps).changes := by
  have hcl : classifyParameter fetch p
      = ⟨ChangeType.create, p, none, "Error retrieving existing parameter"⟩ := by
    unfold classifyParameter
    rw [h]
  exact ⟨hcl, by rw [calculateDiff_changes]; exact List.mem_map.mpr ⟨p, hp, hcl⟩⟩

/-- Witness for the fetch-error fallback theorem. -/
theorem calculateDiff_fetchError_create_witness :
    classifyParameter c8Fetch c8Param
      = ⟨ChangeType.create, c8Param, none, "Error retrieving existing parameter"⟩
    ∧ (⟨ChangeType.create, c8Param, none,
        "Error retrieving existing parameter"⟩ : ParameterChange)
        ∈ (calculateDiff c8Fetch [c8Param]).changes :=
  calculateDiff_fetchError_create c8Fetch [c8Param] c8Param (List.mem_singleton_self _) rfl

theorem retryAux_unfold (send : Nat → SendOutcome) (jitter : Nat → Nat) (attempt : Nat) :
    putParameterWithRetryAux send jitter attempt =
      match send attempt with
      | SendOutcome.ok => ⟨1, [], none⟩
      | SendOutcome.otherError => ⟨1, [], some SendOutcome.otherError⟩
      | SendOutcome.throttle =>
          if attempt ≤ MAX_RETRY_ATTEMPTS then
            let rest := putParameterWithRetryAux send jitter (attempt + 1)
            ⟨rest.attemptsMade + 1, (backoffDelay attempt + jitter attempt) :: rest.delays,
              rest.surfaced⟩
          else ⟨1, [], some SendOutcome.throttle⟩ := by
  rw [putParameterWithRetryAux]
  cases send attempt <;> simp

theorem retryAux_all_throttle (send : Nat → SendOutcome) (jitter : Nat → Nat)
    (hsend : ∀ n, send n = SendOutcome.throttle) :
    ∀ k attempt, MAX_RETRY_ATTEMPTS + 1 - attempt = k → 1 ≤ attempt →
      putParameterWithRetryAux send jitter attempt
        = ⟨k + 1,
           (List.range k).map (fun i => backoffDelay (attempt + i) + jitter (attempt + i)),
           some SendOutcome.throttle⟩
  | 0, attempt => by
      intro hk h1
      rw [retryAux_unfold, hsend]
      have hgt : ¬ attempt ≤ MAX_RETRY_ATTEMPTS := by
        simp only [MAX_RETRY_ATTEMPTS] at hk ⊢
        omega
      rw [if_neg hgt]
      simp
  | k + 1, attempt => by
      intro hk h1
      rw [retryAux_unfold, hsend]
      have hle : attempt ≤ MAX_RETRY_ATTEMPTS := by
        simp only [MAX_RETRY_ATTEMPTS] at hk ⊢
        omega
      rw [if_pos hle]
      rw [retryAux_all_throttle send jitter hsend k (attempt + 1) (by omega) (by omega)]
      simp only [RetryRun.mk.injEq, eq_self_iff_true, and_true, true_and]
      rw [List.range_succ_eq_map, List.map_cons, List.map_map]
      refine List.cons_eq_cons.mpr ⟨by simp, ?_⟩
      apply List.map_congr_left
      intro i _
      have harith : attempt + 1 + i = attempt + (i + 1) := by omega
      simp [Function.comp, harith]

/-- C4 counterexample: with a throttling-class error on every attempt the
retry loop makes 11 sends — the initial attempt plus MAX_RETRY_ATTEMPTS = 10
retries — not exactly 10 as claimed. -/
theorem putParameterWithRetry_attempts_counterexample :
    (putParameterWithRetry (fun _ => SendOutcome.throttle) (fun _ => 0)).attemptsMade = 11
    ∧ ¬ (putParameterWithRetry (fun _ => SendOutcome.throttle)
          (fun _ => 0)).attemptsMade = 10 := by
  have h := retryAux_all_throttle (fun _ => SendOutcome.throttle) (fun _ => 0)
      (fun _ => rfl) 10 1 (by simp [MAX_RETRY_ATTEMPTS]) (by omega)
  unfold putParameterWithRetry
  rw [h]
  simp

/-- C4 amended: under a throttling error on every attempt, the put (or
delete) retry loop makes exactly MAX_RETRY_ATTEMPTS + 1 = 11 sends — the
initial attempt plus 10 retries — and then surfaces the throttling error;
the wait before retry n is min(1500 * 2^(n-1), 60000) ms plus the jitter of
that attempt, and the base waits are non-decreasing up to the 60 s cap; a
non-throttling error is surfaced after a single attempt, never retried. -/
theorem putParameterWithRetry_spec (send send2 : Nat → SendOutcome) (jitter : Nat → Nat)
    (hthrottle : ∀ n, send n = SendOutcome.throttle)
    (h2 : send2 1 = SendOutcome.otherError) :
    (putParameterWithRetry send jitter).attemptsMade = MAX_RETRY_ATTEMPTS + 1
    ∧ (putParameterWithRetry send jitter).surfaced = some SendOutcome.throttle
    ∧ (putParameterWithRetry send jitter).delays
        = (List.range MAX_RETRY_ATTEMPTS).map
            (fun i => backoffDelay (1 + i) + jitter (1 + i))
    ∧ (∀ n, backoffDelay n
        = min (INITIAL_RETRY_DELAY_MS * RETRY_BACKOFF_MULTIPLIER ^ (n - 1)) MAX_RETRY_DELAY_MS)
    ∧ (∀ m n, 1 ≤ m → m ≤ n → backoffDelay m ≤ backoffDelay n)
    ∧ putParameterWithRetry send2 jitter = ⟨1, [], some SendOutcome.otherError⟩
    ∧ (∀ s j, deleteParameterWithRetry s j = putParameterWithRetry s j) := by
  have h := retryAux_all_throttle send jitter hthrottle MAX_RETRY_ATTEMPTS 1
      (by simp [MAX_RETRY_ATTEMPTS]) (by omega)
  refine ⟨?_, ?_, ?_, fun _ => rfl, ?_, ?_, fun _ _ => rfl⟩
  · show (putParameterWithRetryAux send jitter 1).attemptsMade = MAX_RETRY_ATTEMPTS + 1
    rw [h]
  · show (putParameterWithRetryAux send jitter 1).surfaced = some SendOutcome.throttle
    rw [h]
  · show (putParameterWithRetryAux send jitter 1).delays = _
    rw [h]
  · intro m n hm hmn
    unfold backoffDelay
    refine min_le_min ?_ le_rfl
    exact Nat.mul_le_mul_left _
      (Nat.pow_le_pow_right (by norm_num [RETRY_BACKOFF_MULTIPLIER]) (by omega))
  · show putParameterWithRetryAux send2 jitter 1 = _
    rw [retryAux_unfold, h2]

/-- Witness for the retry theorem: all-throttle gives 11 attempts; an
immediate non-throttling error gives one attempt and is surfaced. -/
theorem putParameterWithRetry_spec_witness :
    (putParameterWithRetry (fun _ => SendOutcome.throttle) (fun _ => 100)).attemptsMade
      = MAX_RETRY_ATTEMPTS + 1
    ∧ putParameterWithRetry (fun _ => SendOutcome.otherError) (fun _ => 100)
        = ⟨1, [], some SendOutcome.otherError⟩ := by
  have h := putParameterWithRetry_spec (fun _ => SendOutcome.throttle)
      (fun _ => SendOutcome.otherError) (fun _ => 100) (fun _ => rfl) rfl
  exact ⟨h.1, h.2.2.2.2.2.1⟩

theorem syncParameters_declined (store : Store) (slot : Option RollbackState)
    (ps : List Parameter) (region : String) (profile : Option String) (now : Nat)
    (hcu : (calculateDiff (getParameterModel store) ps).summary.create > 0
        ∨ (calculateDiff (getParameterModel store) ps).summary.update > 0) :
    syncParameters store slot ps false region profile false now
      = ⟨zeroSyncResult, store, some (syncSnapshot store ps region profile now),
         [SyncEvent.saveSnapshot (syncSnapshot store ps region profile now),
          SyncEvent.askConfirmation]⟩ := by
  have hc1 : ¬ false = true ∧
      ((calculateDiff (getParameterModel store) ps).summary.create > 0
        ∨ (calculateDiff (getParameterModel store) ps).summary.update > 0) :=
    ⟨by simp, hcu⟩
  have hc2 : ¬ false = true ∧
      ¬ ((calculateDiff (getParameterModel store) ps).summary.create = 0
        ∧ (calculateDiff (getParameterModel store) ps).summary.update = 0) :=
    ⟨by simp, by rcases hcu with h | h <;> omega⟩
  unfold syncParameters syncSnapshot
  simp only [if_pos hc1, if_pos hc2]
  simp

theorem syncParameters_accepted (store : Store) (slot : Option RollbackState)
    (ps : List Parameter) (region : String) (profile : Option String) (now : Nat)
    (hcu : (calculateDiff (getParameterModel store) ps).summary.create > 0
        ∨ (calculateDiff (getParameterModel store) ps).summary.update > 0) :
    syncParameters store slot ps false region profile true now
      = ⟨(syncWriteFold store ps).2.2, (syncWriteFold store ps).1,
         some (syncSnapshot store ps region profile now),
         SyncEvent.saveSnapshot (syncSnapshot store ps region profile now)
           :: SyncEvent.askConfirmation :: (syncWriteFold store ps).2.1⟩ := by
  have hc1 : ¬ false = true ∧
      ((calculateDiff (getParameterModel store) ps).summary.create > 0
        ∨ (calculateDiff (getParameterModel store) ps).summary.update > 0) :=
    ⟨by simp, hcu⟩
  have hc2 : ¬ false = true ∧
      ¬ ((calculateDiff (getParameterModel store) ps).summary.create = 0
        ∧ (calculateDiff (getParameterModel store) ps).summary.update = 0) :=
    ⟨by simp, by rcases hcu with h | h <;> omega⟩
  unfold syncParameters syncSnapshot syncWriteFold
  simp only [if_pos hc1, if_pos hc2]
  simp

/-- When a diff has zero creates and zero updates, every change is a skip and
the actionable list is empty. -/
theorem actionable_nil_of_noChanges (fetch : String → FetchResult) (ps : List Parameter)
    (h0c : (calculateDiff fetch ps).summary.create = 0)
    (h0u : (calculateDiff fetch ps).summary.update = 0) :
    (calculateDiff fetch ps).changes.filter (fun c => c.type != ChangeType.skip) = [] := by
  rw [calculateDiff_changes]
  rw [calculateDiff_summary_create] at h0c
  rw [calculateDiff_summary_update] at h0u
  rw [List.filter_eq_nil_iff]
  intro c hc
  obtain ⟨p, hp, rfl⟩ := List.mem_map.mp hc
  have h1 := List.countP_eq_zero.mp h0c p hp
  have h2 := List.countP_eq_zero.mp h0u p hp
  cases htype : (classifyParameter fetch p).type with
  | create =>
      rw [htype] at h1
      simp at h1
  | update =>
      rw [htype] at h2
      simp at h2
  | skip => simp [htype]

theorem syncParameters_noChanges (store : Store) (slot : Option RollbackState)
    (ps : List Parameter) (region : String) (profile : Option String)
    (confirmAnswer : Bool) (now : Nat)
    (h0c : (calculateDiff (getParameterModel store) ps).summary.create = 0)
    (h0u : (calculateDiff (getParameterModel store) ps).summary.update = 0) :
    syncParameters store slot ps false region profile confirmAnswer now
      = ⟨⟨0, 0, 0,
          ((calculateDiff (getParameterModel store) ps).changes.filter
            (fun c => c.type == ChangeType.skip)).length, 0, []⟩,
         store, slot, []⟩ := by
  have hc1 : ¬ (¬ false = true ∧
      ((calculateDiff (getParameterModel store) ps).summary.create > 0
        ∨ (calculateDiff (getParameterModel store) ps).summary.update > 0)) := by
    rintro ⟨-, h | h⟩ <;> omega
  have hc2 : ¬ (¬ false = true ∧
      ¬ ((calculateDiff (getParameterModel store) ps).summary.create = 0
        ∧ (calculateDiff (getParameterModel store) ps).summary.update = 0)) := by
    rintro ⟨-, h⟩
    exact h ⟨h0c, h0u⟩
  unfold syncParameters
  simp only [if_neg hc1, if_neg hc2]
  rw [actionable_nil_of_noChanges _ _ h0c h0u]
  simp [zeroSyncResult]

theorem syncParameters_dryRun (store : Store) (slot : Option RollbackState)
    (ps : List Parameter) (region : String) (profile : Option String)
    (confirmAnswer : Bool) (now : Nat) :
    (syncParameters store slot ps true region profile confirmAnswer now).slot = slot
    ∧ (syncParameters store slot ps true region profile confirmAnswer now).events = []
    ∧ ∀ n, (syncParameters store slot ps true region profile confirmAnswer now).store n
        = store n := by
  have hc1 : ¬ (¬ true = true ∧
      ((calculateDiff (getParameterModel store) ps).summary.create > 0
        ∨ (calculateDiff (getParameterModel store) ps).summary.update > 0)) := by
    rintro ⟨h, -⟩
    exact h rfl
  have hc2 : ¬ (¬ true = true ∧
      ¬ ((calculateDiff (getParameterModel store) ps).summary.create = 0
        ∧ (calculateDiff (getParameterModel store) ps).summary.update = 0)) := by
    rintro ⟨h, -⟩
    exact h rfl
  unfold syncParameters
  simp only [if_neg hc1, if_neg hc2]
  simp

theorem applyChange_events_no_save (store : Store) (c : ParameterChange)
    (st : RollbackState) : SyncEvent.saveSnapshot st ∉ (applyChange store c).2 := by
  unfold applyChange
  cases hc : c.type <;>
    by_cases ht : c.parameter.tags.getD [] ≠ [] <;>
      simp [ht]

theorem syncStep_events (acc : Store × List SyncEvent × SyncResult) (c : ParameterChange) :
    (syncStep acc c).2.1 = acc.2.1 ++ (applyChange acc.1 c).2 := by
  unfold syncStep
  cases hc : c.type <;> simp

theorem syncFold_events_no_save :
    ∀ (cs : List ParameterChange) (acc : Store × List SyncEvent × SyncResult)
      (st : RollbackState),
      SyncEvent.saveSnapshot st ∉ acc.2.1 →
      SyncEvent.saveSnapshot st ∉ (cs.foldl syncStep acc).2.1
  | [], _, _, h => h
  | c :: cs, acc, st, h => by
      rw [List.foldl_cons]
      refine syncFold_events_no_save cs _ st ?_
      rw [syncStep_events]
      simp only [List.mem_append, not_or]
      exact ⟨h, applyChange_events_no_save _ _ _⟩

/-- C3: in a non-dry-run put whose diff has at least one create or update,
the snapshot save is the very first event — before the confirmation prompt
and before every remote mutation — and the slot afterwards holds that
snapshot; a dry-run put, and a non-dry-run put whose diff is all skip, emit
no events at all and leave the snapshot slot untouched. -/
theorem syncParameters_snapshot_before_mutation :
    (∀ (store : Store) (slot : Option RollbackState) (ps : List Parameter)
        (region : String) (profile : Option String) (confirmAnswer : Bool) (now : Nat),
      ((calculateDiff (getParameterModel store) ps).summary.create > 0
        ∨ (calculateDiff (getParameterModel store) ps).summary.update > 0) →
      ∃ rest, (syncParameters store slot ps false region profile confirmAnswer now).events
          = SyncEvent.saveSnapshot (syncSnapshot store ps region profile now) :: rest
        ∧ (∀ st, SyncEvent.saveSnapshot st ∉ rest)
        ∧ (syncParameters store slot ps false region profile confirmAnswer now).slot
            = some (syncSnapshot store ps region profile now))
    ∧ (∀ (store : Store) (slot : Option RollbackState) (ps : List Parameter)
        (region : String) (profile : Option String) (confirmAnswer : Bool) (now : Nat),
      (syncParameters store slot ps true region profile confirmAnswer now).slot = slot
        ∧ (syncParameters store slot ps true region profile confirmAnswer now).events = [])
    ∧ (∀ (store : Store) (slot : Option RollbackState) (ps : List Parameter)
        (region : String) (profile : Option String) (confirmAnswer : Bool) (now : Nat),
      (calculateDiff (getParameterModel store) ps).summary.create = 0 →
      (calculateDiff (getParameterModel store) ps).summary.update = 0 →
      (syncParameters store slot ps false region profile confirmAnswer now).slot = slot
        ∧ (syncParameters store slot ps false region profile confirmAnswer now).events
            = []) := by
  refine ⟨?_, ?_, ?_⟩
  · intro store slot ps region profile confirmAnswer now hcu
    cases confirmAnswer
    · rw [syncParameters_declined store slot ps region profile now hcu]
      exact ⟨[SyncEvent.askConfirmation], rfl, by simp, rfl⟩
    · rw [syncParameters_accepted store slot ps region profile now hcu]
      refine ⟨SyncEvent.askConfirmation :: (syncWriteFold store ps).2.1, rfl, ?_, rfl⟩
      intro st
      simp only [List.mem_cons, not_or]
      refine ⟨by simp, ?_⟩
      exact syncFold_events_no_save _ _ st (by simp)
  · intro store slot ps region profile confirmAnswer now
    exact ⟨(syncParameters_dryRun store slot ps region profile confirmAnswer now).1,
      (syncParameters_dryRun store slot ps region profile confirmAnswer now).2.1⟩
  · intro store slot ps region profile confirmAnswer now h0c h0u
    rw [syncParameters_noChanges store slot ps region profile confirmAnswer now h0c h0u]
    exact ⟨rfl, rfl⟩

/-- Witness for the snapshot-ordering theorem at a concrete one-create put. -/
theorem syncParameters_snapshot_before_mutation_witness :
    ∃ rest, (syncParameters wStore none [wParam] false "ap-northeast-1" none true 0).events
        = SyncEvent.saveSnapshot (syncSnapshot wStore [wParam] "ap-northeast-1" none 0) :: rest
      ∧ (∀ st, SyncEvent.saveSnapshot st ∉ rest)
      ∧ (syncParameters wStore none [wParam] false "ap-northeast-1" none true 0).slot
          = some (syncSnapshot wStore [wParam] "ap-northeast-1" none 0) :=
  syncParameters_snapshot_before_mutation.1 wStore none [wParam] "ap-northeast-1" none true 0
    (by decide)

/-- C10: on a non-dry-run put whose diff contains at least one create or
update, the snapshot slot is overwritten before the confirmation prompt is
shown; an operator who then declines leaves the remote store unchanged and
receives the zero-count result, but the slot now holds the new capture,
whatever it held before. -/
theorem syncParameters_declined_overwrites_snapshot (store : Store)
    (slot : Option RollbackState) (ps : List Parameter) (region : String)
    (profile : Option String) (now : Nat)
    (hcu : (calculateDiff (getParameterModel store) ps).summary.create > 0
        ∨ (calculateDiff (getParameterModel store) ps).summary.update > 0) :
    (syncParameters store slot ps false region profile false now).result = zeroSyncResult
    ∧ (∀ n, (syncParameters store slot ps false region profile false now).store n = store n)
    ∧ (syncParameters store slot ps false region profile false now).slot
        = some (syncSnapshot store ps region profile now)
    ∧ (syncParameters store slot ps false region profile false now).events
        = [SyncEvent.saveSnapshot (syncSnapshot store ps region profile now),
           SyncEvent.askConfirmation] := by
  rw [syncParameters_declined store slot ps region profile now hcu]
  exact ⟨rfl, fun _ => rfl, rfl, rfl⟩

/-- Witness for the declined-put theorem: a declined one-create put against
an empty store with a previously occupied slot. -/
theorem syncParameters_declined_overwrites_snapshot_witness :
    (syncParameters wStore (some ⟨0, "r", none, []⟩) [wParam] false "r" none false 5).result
      = zeroSyncResult
    ∧ (∀ n, (syncParameters wStore (some ⟨0, "r", none, []⟩) [wParam] false "r" none false 5).store n
        = wStore n)
    ∧ (syncParameters wStore (some ⟨0, "r", none, []⟩) [wParam] false "r" none false 5).slot
        = some (syncSnapshot wStore [wParam] "r" none 5)
    ∧ (syncParameters wStore (some ⟨0, "r", none, []⟩) [wParam] false "r" none false 5).events
        = [SyncEvent.saveSnapshot (syncSnapshot wStore [wParam] "r" none 5),
           SyncEvent.askConfirmation] :=
  syncParameters_declined_overwrites_snapshot wStore (some ⟨0, "r", none, []⟩) [wParam]
    "r" none 5 (by decide)

/-- C7: loading an empty slot yields null; loading a snapshot whose capture
timestamp lies more than 7 days in the past yields null and clears the slot
as a side effect; a rollback attempted when the load yields null fails with
the no-rollback-history error. -/
theorem loadRollbackState_expiry (st : RollbackState) (now : Nat)
    (hexp : now - st.putTimestamp > SNAPSHOT_EXPIRY_MS) (slot : Option RollbackState)
    (confirm : Bool) (store : Store)
    (hload : (loadRollbackState slot now).1 = none) :
    (loadRollbackState none now).1 = none
    ∧ loadRollbackState (some st) now = (none, none)
    ∧ rollbackParameters slot now confirm store
        = Except.error "No rollback state found or rollback functionality not yet implemented" := by
  refine ⟨rfl, ?_, ?_⟩
  · unfold loadRollbackState
    dsimp only
    rw [if_pos hexp]
  · unfold rollbackParameters
    rcases hls : loadRollbackState slot now with ⟨res, after⟩
    rw [hls] at hload
    dsimp only at hload
    subst hload
    rfl

/-- Witness for the snapshot-expiry theorem: a snapshot captured 8 days ago
loads as null, clears the slot, and rolls back to the history error. -/
theorem loadRollbackState_expiry_witness :
    (loadRollbackState none 691200000).1 = none
    ∧ loadRollbackState (some c7State) 691200000 = (none, none)
    ∧ rollbackParameters (some c7State) 691200000 true (fun _ => none)
        = Except.error "No rollback state found or rollback functionality not yet implemented" :=
  loadRollbackState_expiry c7State 691200000 (by decide) (some c7State) true (fun _ => none)
    (by decide)

theorem rollbackParameters_declined (slot : Option RollbackState) (now : Nat)
    (store : Store) (st : RollbackState)
    (hload : loadRollbackState slot now = (some st, some st)) :
    rollbackParameters slot now false store
      = Except.ok ⟨⟨0, 0, []⟩, store, [], some st⟩ := by
  unfold rollbackParameters
  rw [hload]
  dsimp only
  rw [if_pos (show ¬ false = true by simp)]

/-- C9 counterexample: the rollback prompt timeout is 30 seconds, not 5
minutes; and an invalid answer on the put prompt does not cancel the
operation — the question is asked again and the confirmation is still
pending, not resolved to a cancellation. -/
theorem confirmation_counterexample :
    ROLLBACK_CONFIRM_TIMEOUT_MS = 30000
    ∧ ¬ ROLLBACK_CONFIRM_TIMEOUT_MS = PUT_CONFIRM_TIMEOUT_MS
    ∧ getUserConfirmation (PromptEvent.input "maybe") [] = none
    ∧ ¬ getUserConfirmation (PromptEvent.input "maybe") [] = some false :=
  ⟨rfl, by decide, by decide, by decide⟩

/-- C9 amended: on the put prompt the 5-minute timeout cancels, but it can
only fire before the first answer — the question callback clears the timer
and closes the interface before it inspects the answer, and the re-asked
question never re-arms it; an empty or n/no first answer cancels, y/yes
proceeds, and an invalid first answer neither proceeds nor cancels (the
question is asked again with no timer armed, so with no further answer the
confirmation stays pending); on the rollback prompt the timeout is 30
seconds and any answer other than y/yes — empty or invalid included —
cancels; a cancelled put or rollback applies zero remote changes, leaves
the store untouched, and reports a zero-count success. -/
theorem confirmation_cancel_spec (rest : List String) (s nIn yIn a i : String)
    (hs : jsTrim s = "")
    (hn0 : ¬ jsTrim nIn = "")
    (hn : jsTrim (jsToLower nIn) = "n" ∨ jsTrim (jsToLower nIn) = "no")
    (hy0 : ¬ jsTrim yIn = "")
    (hy : jsTrim (jsToLower yIn) = "y" ∨ jsTrim (jsToLower yIn) = "yes")
    (ha1 : ¬ jsToLower (jsTrim a) = "y") (ha2 : ¬ jsToLower (jsTrim a) = "yes")
    (hi0 : ¬ jsTrim i = "")
    (hi1 : ¬ jsTrim (jsToLower i) = "y") (hi2 : ¬ jsTrim (jsToLower i) = "yes")
    (hi3 : ¬ jsTrim (jsToLower i) = "n") (hi4 : ¬ jsTrim (jsToLower i) = "no")
    (store : Store) (slot : Option RollbackState) (ps : List Parameter)
    (region : String) (profile : Option String) (now : Nat) (st : RollbackState)
    (hload : loadRollbackState slot now = (some st, some st))
    (hcu : (calculateDiff (getParameterModel store) ps).summary.create > 0
        ∨ (calculateDiff (getParameterModel store) ps).summary.update > 0) :
    getUserConfirmation PromptEvent.timeout rest = some false
    ∧ getUserConfirmation (PromptEvent.input s) rest = some false
    ∧ getUserConfirmation (PromptEvent.input nIn) rest = some false
    ∧ getUserConfirmation (PromptEvent.input yIn) rest = some true
    ∧ getUserConfirmation (PromptEvent.input i) [] = none
    ∧ PUT_CONFIRM_TIMEOUT_MS = 300000
    ∧ ROLLBACK_CONFIRM_TIMEOUT_MS = 30000
    ∧ getUserConfirmationWithPrompt PromptEvent.timeout = false
    ∧ getUserConfirmationWithPrompt (PromptEvent.input a) = false
    ∧ (syncParameters store slot ps false region profile false now).result = zeroSyncResult
    ∧ (∀ ev ∈ (syncParameters store slot ps false region profile false now).events,
        ev.isRemoteMutation = false)
    ∧ (∀ n, (syncParameters store slot ps false region profile false now).store n = store n)
    ∧ rollbackParameters slot now false store
        = Except.ok ⟨⟨0, 0, []⟩, store, [], some st⟩ := by
  refine ⟨rfl, ?_, ?_, ?_, ?_, rfl, rfl, rfl, ?_, ?_, ?_, ?_,
    rollbackParameters_declined slot now store st hload⟩
  · simp only [getUserConfirmation, askQuestionLoop]
    rw [if_pos hs]
  · simp only [getUserConfirmation, askQuestionLoop]
    rw [if_neg hn0]
    rcases hn with h | h <;> rw [h]
    · rw [if_neg (by decide), if_pos (by decide)]
    · rw [if_neg (by decide), if_pos (by decide)]
  · simp only [getUserConfirmation, askQuestionLoop]
    rw [if_neg hy0]
    rcases hy with h | h <;> rw [h]
    · rw [if_pos (by decide)]
    · rw [if_pos (by decide)]
  · simp only [getUserConfirmation, askQuestionLoop]
    rw [if_neg hi0]
    rw [if_neg (by rintro (h | h) <;> [exact hi1 h; exact hi2 h])]
    rw [if_neg (by rintro (h | h) <;> [exact hi3 h; exact hi4 h])]
  · unfold getUserConfirmationWithPrompt
    simp only
    rw [Bool.or_eq_false_iff]
    constructor <;> [exact beq_false_of_ne ha1; exact beq_false_of_ne ha2]
  · rw [syncParameters_declined store slot ps region profile now hcu]
  · rw [syncParameters_declined store slot ps region profile now hcu]
    intro ev hev
    simp only [List.mem_cons, List.not_mem_nil, or_false] at hev
    rcases hev with h | h
    · rw [h]
      rfl
    · rw [h]
      rfl
  · rw [syncParameters_declined store slot ps region profile now hcu]
    intro n
    rfl

/-- Witness for the confirmation theorem: the timeout, an empty answer and
a "no" cancel the first put-prompt question, a "yes" proceeds, an invalid
answer leaves the confirmation pending, a non-yes answer cancels the
rollback prompt, and the declined put and rollback leave everything
untouched with zero counts. -/
theorem confirmation_cancel_spec_witness :
    getUserConfirmation PromptEvent.timeout [] = some false
    ∧ getUserConfirmation (PromptEvent.input "  ") [] = some false
    ∧ getUserConfirmation (PromptEvent.input "No") [] = some false
    ∧ getUserConfirmation (PromptEvent.input " Y ") [] = some true
    ∧ getUserConfirmation (PromptEvent.input "maybe") [] = none
    ∧ getUserConfirmationWithPrompt (PromptEvent.input "q") = false
    ∧ (syncParameters wStore (some c9State) [wParam] false "r" none false 0).result
        = zeroSyncResult
    ∧ rollbackParameters (some c9State) 0 false wStore
        = Except.ok ⟨⟨0, 0, []⟩, wStore, [], some c9State⟩ := by
  obtain ⟨h1, h2, h3, h4, h5, h6, h7, h8, h9, h10, h11, h12, h13⟩ :=
    confirmation_cancel_spec [] "  " "No" " Y " "q" "maybe"
      (by decide) (by decide) (by decide) (by decide) (by decide)
      (by decide) (by decide) (by decide) (by decide) (by decide)
      (by decide) (by decide)
      wStore (some c9State) [wParam] "r" none 0 c9State (by decide) (by decide)
  exact ⟨h1, h2, h3, h4, h5, h9, h10, h13⟩

theorem applyRollbackEntry_store_other (acc : Store × List SyncEvent × Nat)
    (e : AffectedParameter) (n : String) (hn : n ≠ e.name) :
    (applyRollbackEntry acc e).1 n = acc.1 n := by
  unfold applyRollbackEntry
  cases e.action
  · simp [hn]
  · cases e.previousValue
    · rfl
    · by_cases ht : e.previousTags.getD [] ≠ [] <;> simp [ht, hn]

theorem rollbackFold_store_other :
    ∀ (entries : List AffectedParameter) (acc : Store × List SyncEvent × Nat) (n : String),
      (∀ e ∈ entries, n ≠ e.name) →
      ((entries.foldl applyRollbackEntry acc).1) n = acc.1 n
  | [], _, _, _ => rfl
  | e :: es, acc, n, h => by
      rw [List.foldl_cons]
      rw [rollbackFold_store_other es _ n (fun e2 he2 => h e2 (List.mem_cons_of_mem _ he2))]
      exact applyRollbackEntry_store_other acc e n (h e (List.mem_cons_self _ _))

theorem applyRollbackEntry_events_extend (acc : Store × List SyncEvent × Nat)
    (e : AffectedParameter) :
    ∃ d, (applyRollbackEntry acc e).2.1 = acc.2.1 ++ d := by
  unfold applyRollbackEntry
  cases e.action
  · exact ⟨_, rfl⟩
  · cases e.previousValue
    · exact ⟨[], by simp⟩
    · by_cases ht : e.previousTags.getD [] ≠ [] <;> simp [ht]

theorem rollbackFold_events_extend :
    ∀ (entries : List AffectedParameter) (acc : Store × List SyncEvent × Nat),
      ∃ suffix, (entries.foldl applyRollbackEntry acc).2.1 = acc.2.1 ++ suffix
  | [], acc => ⟨[], by simp⟩
  | e :: es, acc => by
      rw [List.foldl_cons]
      obtain ⟨suf, hsuf⟩ := rollbackFold_events_extend es (applyRollbackEntry acc e)
      obtain ⟨delta, hdelta⟩ := applyRollbackEntry_events_extend acc e
      exact ⟨delta ++ suf, by rw [hsuf, hdelta, List.append_assoc]⟩

theorem applyRollbackEntry_created (acc : Store × List SyncEvent × Nat)
    (e : AffectedParameter) (hact : e.action = RollbackAction.created) :
    (applyRollbackEntry acc e).1 e.name = none
    ∧ (applyRollbackEntry acc e).2.1 = acc.2.1 ++ [SyncEvent.remoteDelete e.name] := by
  unfold applyRollbackEntry
  rw [hact]
  simp

theorem applyRollbackEntry_updated (acc : Store × List SyncEvent × Nat)
    (e : AffectedParameter) (v : String)
    (hact : e.action = RollbackAction.updated) (hv : e.previousValue = some v) :
    (∃ sp, (applyRollbackEntry acc e).1 e.name = some sp
      ∧ sp.value = v ∧ sp.type = e.previousType.getD "String"
      ∧ sp.description = e.previousDescription.getD ""
      ∧ sp.keyId = e.previousKmsKeyId.getD "")
    ∧ (applyRollbackEntry acc e).2.1
        = acc.2.1 ++ (SyncEvent.remotePut e.name v (e.previousType.getD "String")
            (e.previousDescription.getD "") (e.previousKmsKeyId.getD "") [] true
          :: (if e.previousTags.getD [] ≠ []
              then [SyncEvent.remoteAddTags e.name (e.previousTags.getD [])] else [])) := by
  unfold applyRollbackEntry
  rw [hact, hv]
  dsimp only
  by_cases ht : e.previousTags.getD [] = []
  · rw [if_neg (show ¬ e.previousTags.getD [] ≠ [] from fun h => h ht)]
    refine ⟨⟨⟨v, e.previousType.getD "String", e.previousDescription.getD "",
        e.previousKmsKeyId.getD "",
        (Option.map StoredParam.tags (acc.1 e.name)).getD [],
        (Option.map StoredParam.version (acc.1 e.name)).getD 0 + 1⟩,
        by simp, rfl, rfl, rfl, rfl⟩, by simp [ht]⟩
  · rw [if_pos ht]
    refine ⟨⟨⟨v, e.previousType.getD "String", e.previousDescription.getD "",
        e.previousKmsKeyId.getD "",
        mergeTags ((Option.map StoredParam.tags (acc.1 e.name)).getD [])
          (e.previousTags.getD []),
        (Option.map StoredParam.version (acc.1 e.name)).getD 0 + 1⟩,
        by simp, rfl, rfl, rfl, rfl⟩, by simp [ht]⟩

theorem rollbackFold_spec :
    ∀ (entries : List AffectedParameter) (acc : Store × List SyncEvent × Nat),
      ((entries.map AffectedParameter.name).Nodup) →
      (∀ e ∈ entries, e.action = RollbackAction.created →
          ((entries.foldl applyRollbackEntry acc).1) e.name = none
          ∧ ∃ pre post, (entries.foldl applyRollbackEntry acc).2.1
              = pre ++ SyncEvent.remoteDelete e.name :: post)
      ∧ (∀ e ∈ entries, ∀ v, e.action = RollbackAction.updated → e.previousValue = some v →
          (∃ sp, ((entries.foldl applyRollbackEntry acc).1) e.name = some sp
            ∧ sp.value = v ∧ sp.type = e.previousType.getD "String"
            ∧ sp.description = e.previousDescription.getD ""
            ∧ sp.keyId = e.previousKmsKeyId.getD "")
          ∧ ∃ pre post, (entries.foldl applyRollbackEntry acc).2.1
              = pre ++ SyncEvent.remotePut e.name v (e.previousType.getD "String")
                  (e.previousDescription.getD "") (e.previousKmsKeyId.getD "") [] true
                :: ((if e.previousTags.getD [] ≠ []
                    then [SyncEvent.remoteAddTags e.name (e.previousTags.getD [])] else [])
                  ++ post))
  | [], _, _ => ⟨fun e he => absurd he (List.not_mem_nil e), fun e he => absurd he (List.not_mem_nil e)⟩
  | e :: es, acc, hnodup => by
      have hne : ∀ e2 ∈ es, e.name ≠ e2.name := by
        intro e2 he2
        have := (List.nodup_cons.mp hnodup).1
        intro heq
        exact this (heq ▸ List.mem_map_of_mem AffectedParameter.name he2)
      have hnd : (es.map AffectedParameter.name).Nodup := (List.nodup_cons.mp hnodup).2
      have ihs := rollbackFold_spec es (applyRollbackEntry acc e) hnd
      obtain ⟨suf, hsuf⟩ := rollbackFold_events_extend es (applyRollbackEntry acc e)
      constructor
      · intro e2 he2 hact
        rcases List.mem_cons.mp he2 with rfl | he2
        · rw [List.foldl_cons]
          constructor
          · rw [rollbackFold_store_other es _ _ hne]
            exact (applyRollbackEntry_created acc e2 hact).1
          · rw [hsuf, (applyRollbackEntry_created acc e2 hact).2, List.append_assoc]
            exact ⟨acc.2.1, suf, by simp⟩
        · rw [List.foldl_cons]
          exact ihs.1 e2 he2 hact
      · intro e2 he2 v hact hv
        rcases List.mem_cons.mp he2 with rfl | he2
        · rw [List.foldl_cons]
          constructor
          · rw [rollbackFold_store_other es _ _ hne]
            exact (applyRollbackEntry_updated acc e2 v hact hv).1
          · rw [hsuf, (applyRollbackEntry_updated acc e2 v hact hv).2, List.append_assoc]
            exact ⟨acc.2.1, suf, by simp⟩
        · rw [List.foldl_cons]
          exact ihs.2 e2 he2 v hact hv

/-- C2: rollback reverses exactly the captured delta — with distinct entry
names, every `created` entry's parameter is deleted (absent afterwards, with
a delete call in the trace), and every `updated` entry with a recorded prior
value is restored by an overwrite put carrying the recorded prior value,
type, description and key id, immediately followed by a tag-restore call
when non-empty prior tags were recorded. -/
theorem rollbackParameters_reverses (st : RollbackState) (now : Nat) (store : Store)
    (slot : Option RollbackState)
    (hload : loadRollbackState slot now = (some st, some st))
    (hnodup : (st.affectedParameters.map AffectedParameter.name).Nodup) :
    ∃ run : RollbackRun, rollbackParameters slot now true store = Except.ok run
    ∧ (∀ e ∈ st.affectedParameters, e.action = RollbackAction.created →
        run.store e.name = none
        ∧ ∃ pre post, run.events = pre ++ SyncEvent.remoteDelete e.name :: post)
    ∧ (∀ e ∈ st.affectedParameters, ∀ v, e.action = RollbackAction.updated →
        e.previousValue = some v →
        (∃ sp, run.store e.name = some sp ∧ sp.value = v
          ∧ sp.type = e.previousType.getD "String"
          ∧ sp.description = e.previousDescription.getD ""
          ∧ sp.keyId = e.previousKmsKeyId.getD "")
        ∧ ∃ pre post, run.events
            = pre ++ SyncEvent.remotePut e.name v (e.previousType.getD "String")
                (e.previousDescription.getD "") (e.previousKmsKeyId.getD "") [] true
              :: ((if e.previousTags.getD [] ≠ []
                  then [SyncEvent.remoteAddTags e.name (e.previousTags.getD [])] else [])
                ++ post)) := by
  unfold rollbackParameters
  rw [hload]
  dsimp only
  rw [if_neg (show ¬ ¬ true = true by simp)]
  refine ⟨_, rfl, ?_, ?_⟩
  · intro e he hact
    exact (rollbackFold_spec st.affectedParameters (store, [], 0) hnodup).1 e he hact
  · intro e he v hact hv
    exact (rollbackFold_spec st.affectedParameters (store, [], 0) hnodup).2 e he v hact hv

/-- Witness for the rollback-reversal theorem at the concrete snapshot. -/
theorem rollbackParameters_reverses_witness :
    ∃ run : RollbackRun, rollbackParameters (some c2State) 0 true c2Store = Except.ok run
    ∧ (∀ e ∈ c2State.affectedParameters, e.action = RollbackAction.created →
        run.store e.name = none
        ∧ ∃ pre post, run.events = pre ++ SyncEvent.remoteDelete e.name :: post)
    ∧ (∀ e ∈ c2State.affectedParameters, ∀ v, e.action = RollbackAction.updated →
        e.previousValue = some v →
        (∃ sp, run.store e.name = some sp ∧ sp.value = v
          ∧ sp.type = e.previousType.getD "String"
          ∧ sp.description = e.previousDescription.getD ""
          ∧ sp.keyId = e.previousKmsKeyId.getD "")
        ∧ ∃ pre post, run.events
            = pre ++ SyncEvent.remotePut e.name v (e.previousType.getD "String")
                (e.previousDescription.getD "") (e.previousKmsKeyId.getD "") [] true
              :: ((if e.previousTags.getD [] ≠ []
                  then [SyncEvent.remoteAddTags e.name (e.previousTags.getD [])] else [])
                ++ post)) :=
  rollbackParameters_reverses c2State 0 c2Store (some c2State) (by decide) (by decide)

theorem applyChange_store_self (store : Store) (c : ParameterChange) :
    (applyChange store c).1 c.parameter.name = changeResult (store c.parameter.name) c := by
  unfold applyChange changeResult
  cases c.type
  · simp
  · dsimp only
    by_cases ht : c.parameter.tags.getD [] ≠ [] <;> simp [ht]
  · rfl

theorem applyChange_store_other (store : Store) (c : ParameterChange) (n : String)
    (hn : n ≠ c.parameter.name) :
    (applyChange store c).1 n = store n := by
  unfold applyChange
  cases c.type
  · simp [hn]
  · dsimp only
    by_cases ht : c.parameter.tags.getD [] ≠ [] <;> simp [ht, hn]
  · rfl

theorem syncStep_store (acc : Store × List SyncEvent × SyncResult) (c : ParameterChange) :
    (syncStep acc c).1 = (applyChange acc.1 c).1 := by
  unfold syncStep
  cases c.type <;> simp

theorem syncFold_store_other :
    ∀ (cs : List ParameterChange) (acc : Store × List SyncEvent × SyncResult) (n : String),
      (∀ c ∈ cs, n ≠ c.parameter.name) →
      ((cs.foldl syncStep acc).1) n = acc.1 n
  | [], _, _, _ => rfl
  | c :: cs, acc, n, h => by
      rw [List.foldl_cons]
      rw [syncFold_store_other cs _ n (fun c2 hc2 => h c2 (List.mem_cons_of_mem _ hc2))]
      rw [syncStep_store]
      exact applyChange_store_other acc.1 c n (h c (List.mem_cons_self _ _))

theorem syncFold_store_mem :
    ∀ (cs : List ParameterChange) (acc : Store × List SyncEvent × SyncResult)
      (c : ParameterChange), c ∈ cs →
      ((cs.map (fun x => x.parameter.name)).Nodup) →
      ((cs.foldl syncStep acc).1) c.parameter.name
        = changeResult (acc.1 c.parameter.name) c
  | [], _, c, hc, _ => absurd hc (List.not_mem_nil c)
  | c2 :: cs, acc, c, hc, hnodup => by
      have hne : ∀ x ∈ cs, c2.parameter.name ≠ x.parameter.name := by
        intro x hx heq
        apply (List.nodup_cons.mp hnodup).1
        show c2.parameter.name ∈ _
        rw [heq]
        exact List.mem_map_of_mem (fun y => y.parameter.name) hx
      rcases List.mem_cons.mp hc with rfl | hc
      · rw [List.foldl_cons]
        rw [syncFold_store_other cs _ _ hne]
        rw [syncStep_store]
        exact applyChange_store_self acc.1 c
      · rw [List.foldl_cons]
        rw [syncFold_store_mem cs _ c hc (List.nodup_cons.mp hnodup).2]
        have hcn : c2.parameter.name ≠ c.parameter.name := hne c hc
        rw [syncStep_store, applyChange_store_other acc.1 c2 _ (Ne.symm hcn)]

theorem changes_names (fetch : String → FetchResult) (ps : List Parameter) :
    (calculateDiff fetch ps).changes.map (fun c => c.parameter.name)
      = ps.map Parameter.name := by
  rw [calculateDiff_changes, List.map_map]
  apply List.map_congr_left
  intro p _
  simp [Function.comp, classifyParameter_parameter]

theorem areTagsIdentical_refl (l : List Tag) : areTagsIdentical l l = true := by
  unfold areTagsIdentical
  rw [if_neg (by simp)]
  exact tagListsPairwiseEqual_refl _

theorem mergeTags_covered (old new : List Tag)
    (hcov : ∀ t ∈ old, ∃ t2 ∈ new, t2.key = t.key) :
    mergeTags old new = new := by
  unfold mergeTags
  have : old.filter (fun t => ! new.any (fun n => n.key == t.key)) = [] := by
    rw [List.filter_eq_nil_iff]
    intro t ht
    obtain ⟨t2, ht2, hk⟩ := hcov t ht
    simp only [Bool.not_eq_true', Bool.not_eq_false]
    exact List.any_eq_true.mpr ⟨t2, ht2, by simp [hk]⟩
  rw [this]
  rfl

theorem syncParameters_confirmed_store (store : Store) (slot : Option RollbackState)
    (ps : List Parameter) (region : String) (profile : Option String) (now : Nat) :
    (syncParameters store slot ps false region profile true now).store
      = (syncWriteFold store ps).1 := by
  by_cases hcu : (calculateDiff (getParameterModel store) ps).summary.create > 0
      ∨ (calculateDiff (getParameterModel store) ps).summary.update > 0
  · rw [syncParameters_accepted store slot ps region profile now hcu]
  · push_neg at hcu
    have h0c : (calculateDiff (getParameterModel store) ps).summary.create = 0 := by omega
    have h0u : (calculateDiff (getParameterModel store) ps).summary.update = 0 := by omega
    rw [syncParameters_noChanges store slot ps region profile true now h0c h0u]
    show store = _
    unfold syncWriteFold
    rw [actionable_nil_of_noChanges _ _ h0c h0u]
    rfl

theorem classify_after_syncWriteFold (store : Store) (ps : List Parameter) (p : Parameter)
    (hp : p ∈ ps)
    (hnodup : (ps.map Parameter.name).Nodup)
    (hkms : p.kmsKeyId.getD "" = "")
    (htags : ∀ sp, store p.name = some sp →
        isParameterIdentical ⟨p.name, sp.value, sp.type, sp.description, "", sp.version,
          sp.tags⟩ p = false →
        ∀ t ∈ sp.tags, ∃ t2 ∈ p.tags.getD [], t2.key = t.key) :
    (classifyParameter (getParameterModel (syncWriteFold store ps).1) p).type
      = ChangeType.skip := by
  have hchn : ((calculateDiff (getParameterModel store) ps).changes.map
      (fun c => c.parameter.name)).Nodup := by
    rw [changes_names]
    exact hnodup
  have hactnodup : ((((calculateDiff (getParameterModel store) ps).changes.filter
      (fun c => c.type != ChangeType.skip)).map (fun c => c.parameter.name))).Nodup :=
    hchn.sublist ((List.filter_sublist _).map _)
  have hcmem : classifyParameter (getParameterModel store) p
      ∈ (calculateDiff (getParameterModel store) ps).changes := by
    rw [calculateDiff_changes]
    exact List.mem_map_of_mem _ hp
  have hothers : (classifyParameter (getParameterModel store) p).type = ChangeType.skip →
      ∀ c2 ∈ (calculateDiff (getParameterModel store) ps).changes.filter
        (fun c => c.type != ChangeType.skip), p.name ≠ c2.parameter.name := by
    intro hskip c2 hc2 heq
    have hc2m := (List.mem_filter.mp hc2).1
    have hc2t := (List.mem_filter.mp hc2).2
    have : c2 = classifyParameter (getParameterModel store) p := by
      apply List.inj_on_of_nodup_map hchn hc2m hcmem
      rw [classifyParameter_parameter]
      exact heq.symm
    rw [this, hskip] at hc2t
    simp at hc2t
  cases hst : store p.name with
  | none =>
      have hfetch : getParameterModel store p.name = FetchResult.notFound := by
        unfold getParameterModel
        rw [hst]
      have hcls : classifyParameter (getParameterModel store) p
          = ⟨ChangeType.create, p, none, "Parameter does not exist"⟩ := by
        unfold classifyParameter
        rw [hfetch]
      have hmemact : classifyParameter (getParameterModel store) p
          ∈ (calculateDiff (getParameterModel store) ps).changes.filter
            (fun c => c.type != ChangeType.skip) := by
        apply List.mem_filter.mpr
        exact ⟨hcmem, by rw [hcls]; rfl⟩
      have hS : (syncWriteFold store ps).1 p.name
          = changeResult (store p.name) (classifyParameter (getParameterModel store) p) := by
        unfold syncWriteFold
        have := syncFold_store_mem _
          (store, [],
            { zeroSyncResult with
                skipped := (((calculateDiff (getParameterModel store) ps).changes.filter
                  (fun c => c.type == ChangeType.skip))).length })
          _ hmemact hactnodup
        rw [classifyParameter_parameter] at this
        exact this
      rw [hcls] at hS
      rw [hst] at hS
      have hS2 : (syncWriteFold store ps).1 p.name
          = some ⟨p.value, p.type, p.description.getD "", p.kmsKeyId.getD "",
              p.tags.getD [], 1⟩ := by
        rw [hS]
        rfl
      have hfetch2 : getParameterModel (syncWriteFold store ps).1 p.name
          = FetchResult.found ⟨p.name, p.value, p.type, p.description.getD "", "", 1,
              p.tags.getD []⟩ := by
        unfold getParameterModel
        rw [hS2]
      have hident : isParameterIdentical
          ⟨p.name, p.value, p.type, p.description.getD "", "", 1, p.tags.getD []⟩ p
            = true := by
        unfold isParameterIdentical
        rw [if_neg (by simp), if_neg (by simp), if_neg (by simp),
          if_neg (by simp [hkms]), if_neg (by simp [areTagsIdentical_refl])]
      unfold classifyParameter
      rw [hfetch2]
      dsimp only
      rw [if_pos hident]
  | some sp =>
      have hfetch : getParameterModel store p.name
          = FetchResult.found ⟨p.name, sp.value, sp.type, sp.description, "", sp.version,
              sp.tags⟩ := by
        unfold getParameterModel
        rw [hst]
      by_cases hid : isParameterIdentical
          ⟨p.name, sp.value, sp.type, sp.description, "", sp.version, sp.tags⟩ p = true
      · have hcls : (classifyParameter (getParameterModel store) p).type
            = ChangeType.skip := by
          unfold classifyParameter
          rw [hfetch]
          dsimp only
          rw [if_pos hid]
        have hS : (syncWriteFold store ps).1 p.name = store p.name := by
          unfold syncWriteFold
          exact syncFold_store_other _ _ _ (hothers hcls)
        have hfetch2 : getParameterModel (syncWriteFold store ps).1 p.name
            = FetchResult.found ⟨p.name, sp.value, sp.type, sp.description, "", sp.version,
                sp.tags⟩ := by
          unfold getParameterModel
          rw [hS, hst]
        unfold classifyParameter
        rw [hfetch2]
        dsimp only
        rw [if_pos hid]
      · have hcls : classifyParameter (getParameterModel store) p
            = ⟨ChangeType.update, p,
                some ⟨p.name, sp.value, sp.type, sp.description, "", sp.version, sp.tags⟩,
                "Parameter values differ"⟩ := by
          unfold classifyParameter
          rw [hfetch]
          dsimp only
          rw [if_neg hid]
        have hmemact : classifyParameter (getParameterModel store) p
            ∈ (calculateDiff (getParameterModel store) ps).changes.filter
              (fun c => c.type != ChangeType.skip) := by
          apply List.mem_filter.mpr
          exact ⟨hcmem, by rw [hcls]; rfl⟩
        have hS : (syncWriteFold store ps).1 p.name
            = changeResult (store p.name) (classifyParameter (getParameterModel store) p) := by
          unfold syncWriteFold
          have := syncFold_store_mem _
            (store, [],
              { zeroSyncResult with
                  skipped := (((calculateDiff (getParameterModel store) ps).changes.filter
                    (fun c => c.type == ChangeType.skip))).length })
            _ hmemact hactnodup
          rw [classifyParameter_parameter] at this
          exact this
        rw [hcls, hst] at hS
        have hcov := htags sp hst (by
          rw [Bool.not_eq_true] at hid
          exact hid)
        by_cases hdes : p.tags.getD [] = []
        · have hsp : sp.tags = [] := by
            cases hspt : sp.tags with
            | nil => rfl
            | cons t ts =>
                obtain ⟨t2, ht2, -⟩ := hcov t (by rw [hspt]; exact List.mem_cons_self _ _)
                rw [hdes] at ht2
                exact absurd ht2 (List.not_mem_nil _)
          have hS2 : (syncWriteFold store ps).1 p.name
              = some ⟨p.value, p.type, p.description.getD "", p.kmsKeyId.getD "",
                  sp.tags, sp.version + 1⟩ := by
            rw [hS]
            unfold changeResult
            dsimp only
            rw [if_neg (show ¬ p.tags.getD [] ≠ [] from fun h => h hdes)]
            rfl
          have hfetch2 : getParameterModel (syncWriteFold store ps).1 p.name
              = FetchResult.found ⟨p.name, p.value, p.type, p.description.getD "", "",
                  sp.version + 1, sp.tags⟩ := by
            unfold getParameterModel
            rw [hS2]
          have hident : isParameterIdentical
              ⟨p.name, p.value, p.type, p.description.getD "", "", sp.version + 1,
                sp.tags⟩ p = true := by
            unfold isParameterIdentical
            rw [if_neg (by simp), if_neg (by simp), if_neg (by simp),
              if_neg (by simp [hkms]),
              if_neg (by simp [hsp, hdes, areTagsIdentical_refl])]
          unfold classifyParameter
          rw [hfetch2]
          dsimp only
          rw [if_pos hident]
        · have hS2 : (syncWriteFold store ps).1 p.name
              = some ⟨p.value, p.type, p.description.getD "", p.kmsKeyId.getD "",
                  mergeTags sp.tags (p.tags.getD []), sp.version + 1⟩ := by
            rw [hS]
            unfold changeResult
            dsimp only
            rw [if_pos hdes]
            rfl
          have hmerge : mergeTags sp.tags (p.tags.getD []) = p.tags.getD [] :=
            mergeTags_covered _ _ hcov
          have hfetch2 : getParameterModel (syncWriteFold store ps).1 p.name
              = FetchResult.found ⟨p.name, p.value, p.type, p.description.getD "", "",
                  sp.version + 1, p.tags.getD []⟩ := by
            unfold getParameterModel
            rw [hS2, hmerge]
          have hident : isParameterIdentical
              ⟨p.name, p.value, p.type, p.description.getD "", "", sp.version + 1,
                p.tags.getD []⟩ p = true := by
            unfold isParameterIdentical
            rw [if_neg (by simp), if_neg (by simp), if_neg (by simp),
              if_neg (by simp [hkms]),
              if_neg (by simp [areTagsIdentical_refl])]
          unfold classifyParameter
          rw [hfetch2]
          dsimp only
          rw [if_pos hident]

/-- C5 amended: sync is idempotent for desired lists with unique names when
no parameter sets an encryption key id and, for every parameter the first
run classifies Update, every tag key on the existing remote entry also
appears in the desired tag set; the second run then classifies every
parameter Skip with zero creates and zero updates.  (The key-id restriction
is forced because the remote read reports the key id as an empty string, so
any parameter with a key id is re-classified Update forever; the tag
restriction because the tag call merges into, rather than replaces, the
remote tags.) -/
theorem syncParameters_idempotent (store : Store) (slot : Option RollbackState)
    (ps : List Parameter) (region : String) (profile : Option String) (now : Nat)
    (hnodup : (ps.map Parameter.name).Nodup)
    (hkms : ∀ p ∈ ps, p.kmsKeyId.getD "" = "")
    (htags : ∀ p ∈ ps, ∀ sp, store p.name = some sp →
        isParameterIdentical ⟨p.name, sp.value, sp.type, sp.description, "", sp.version,
          sp.tags⟩ p = false →
        ∀ t ∈ sp.tags, ∃ t2 ∈ p.tags.getD [], t2.key = t.key) :
    (∀ c ∈ (calculateDiff (getParameterModel
        (syncParameters store slot ps false region profile true now).store) ps).changes,
      c.type = ChangeType.skip)
    ∧ (calculateDiff (getParameterModel
        (syncParameters store slot ps false region profile true now).store) ps).summary.create
        = 0
    ∧ (calculateDiff (getParameterModel
        (syncParameters store slot ps false region profile true now).store) ps).summary.update
        = 0 := by
  rw [syncParameters_confirmed_store store slot ps region profile now]
  have hallskip : ∀ p ∈ ps,
      (classifyParameter (getParameterModel (syncWriteFold store ps).1) p).type
        = ChangeType.skip := by
    intro p hp
    exact classify_after_syncWriteFold store ps p hp hnodup (hkms p hp) (htags p hp)
  refine ⟨?_, ?_, ?_⟩
  · intro c hc
    rw [calculateDiff_changes] at hc
    obtain ⟨p, hp, rfl⟩ := List.mem_map.mp hc
    exact hallskip p hp
  · rw [calculateDiff_summary_create]
    apply List.countP_eq_zero.mpr
    intro p hp
    simp [hallskip p hp]
  · rw [calculateDiff_summary_update]
    apply List.countP_eq_zero.mpr
    intro p hp
    simp [hallskip p hp]

/-- C5 counterexample: after a fully successful run that creates a parameter
with an encryption key id, the second run classifies it Update, not Skip —
the remote read reports the key id as empty, so the comparison always fails. -/
theorem syncParameters_idempotent_counterexample :
    (calculateDiff (getParameterModel
        (syncParameters wStore none [c5Param] false "r" none true 0).store)
      [c5Param]).summary.update = 1
    ∧ (calculateDiff (getParameterModel
        (syncParameters wStore none [c5Param] false "r" none true 0).store)
      [c5Param]).summary.skip = 0 := by
  constructor <;> decide

/-- Witness for the amended idempotence theorem: one plain parameter put
into an empty store; the second diff is all skip. -/
theorem syncParameters_idempotent_witness :
    (∀ c ∈ (calculateDiff (getParameterModel
        (syncParameters wStore none [wParam] false "r" none true 0).store)
      [wParam]).changes, c.type = ChangeType.skip)
    ∧ (calculateDiff (getParameterModel
        (syncParameters wStore none [wParam] false "r" none true 0).store)
      [wParam]).summary.create = 0
    ∧ (calculateDiff (getParameterModel
        (syncParameters wStore none [wParam] false "r" none true 0).store)
      [wParam]).summary.update = 0 := by
  have h := syncParameters_idempotent wStore none [wParam] "r" none 0
    (by decide) (by decide)
    (by
      intro p hp sp hsp
      simp [wStore] at hsp)
  exact h
